import Mathlib

/-!
# Verification of the simdive dive-computer simulation core

Shallow embedding of the Bühlmann ZHL-16C decompression calculator
(`useDecompression.ts`), the air-consumption model (`useAirConsumption.ts`)
and the dive-progression engine (`useDiveEngine.ts`), together with proofs
of the specified properties.

Purely rational arithmetic from the source (pressures, M-values, ceiling,
air consumption, ascent rate, event dispatch) is embedded generically over a
`LinearOrderedField`, so that it can be instantiated at `ℚ` (decidable,
executable) as well as at `ℝ` inside the engine.  The transcendental parts
(Schreiner tissue loading, NDL, deco-stop simulation) are embedded over `ℝ`.
-/

namespace Simdive

/-! ## Constants (types/dive.ts) -/

def WATER_VAPOR_PRESSURE {K : Type} [LinearOrderedField K] : K := 0.0627
def SURFACE_PRESSURE {K : Type} [LinearOrderedField K] : K := 1.013
def N2_FRACTION {K : Type} [LinearOrderedField K] : K := 0.79
def METERS_TO_BAR {K : Type} [LinearOrderedField K] : K := 0.1
def MAX_ASCENT_RATE {K : Type} [LinearOrderedField K] : K := 10
def SAFETY_STOP_DEPTH {K : Type} [LinearOrderedField K] : K := 5
def SAFETY_STOP_DURATION {K : Type} [LinearOrderedField K] : K := 180

/-- JavaScript `Math.round`: round half toward positive infinity,
`Math.round x = ⌊x + 0.5⌋`. -/
def jsRound {K : Type} [LinearOrderedField K] [FloorRing K] (x : K) : ℤ :=
  ⌊x + 1 / 2⌋

/-! ## Tissue compartments (types/dive.ts) -/

/-- One Bühlmann tissue compartment with its current nitrogen loading. -/
structure TissueCompartment (K : Type) where
  halfTime : K
  a : K
  b : K
  pN2 : K
  deriving Repr, DecidableEq

/-- The sixteen ZHL-16C coefficient triples `(halfTime, a, b)`. -/
def BUHLMANN_ZHL16C {K : Type} [LinearOrderedField K] : List (K × K × K) :=
  [(4.0, 1.2599, 0.505),
   (8.0, 1.0, 0.6514),
   (12.5, 0.8618, 0.7222),
   (18.5, 0.7562, 0.7825),
   (27.0, 0.62, 0.8126),
   (38.3, 0.5043, 0.8434),
   (54.3, 0.441, 0.8693),
   (77.0, 0.4, 0.891),
   (109.0, 0.375, 0.9092),
   (146.0, 0.35, 0.9222),
   (187.0, 0.3295, 0.9319),
   (239.0, 0.3065, 0.9403),
   (305.0, 0.2835, 0.9477),
   (390.0, 0.261, 0.9544),
   (498.0, 0.248, 0.9602),
   (635.0, 0.2327, 0.9653)]

/-- Surface nitrogen saturation used to initialize every compartment. -/
def surfaceN2Pressure {K : Type} [LinearOrderedField K] : K :=
  (SURFACE_PRESSURE - WATER_VAPOR_PRESSURE) * N2_FRACTION

/-- Initial tissue state: the 16 ZHL-16C compartments at surface saturation. -/
def initialTissues {K : Type} [LinearOrderedField K] : List (TissueCompartment K) :=
  BUHLMANN_ZHL16C.map (fun c => ⟨c.1, c.2.1, c.2.2, surfaceN2Pressure⟩)

/-! ## Decompression model: the rational-arithmetic part
(useDecompression.ts) -/

/-- `getAmbientPressure(depth) = SURFACE_PRESSURE + depth * METERS_TO_BAR`. -/
def getAmbientPressure {K : Type} [LinearOrderedField K] (depth : K) : K :=
  SURFACE_PRESSURE + depth * METERS_TO_BAR

/-- `getInspiredN2Pressure(depth)`. -/
def getInspiredN2Pressure {K : Type} [LinearOrderedField K] (depth : K) : K :=
  (getAmbientPressure depth - WATER_VAPOR_PRESSURE) * N2_FRACTION

/-- Bühlmann M-value `M = a + P_ambient / b`. -/
def getMValue {K : Type} [LinearOrderedField K]
    (compartment : TissueCompartment K) (depth : K) : K :=
  compartment.a + getAmbientPressure depth / compartment.b

/-- Gradient-factor adjusted M-value, exactly as `getGFMValue` in
useDecompression.ts: when `firstStopDepth ≤ 0` the gradient factor is
`gfHigh`; otherwise `gf = gfHigh + (gfLow − gfHigh) * depth / firstStopDepth`;
the result is `ambient + gf * (M − ambient)`. -/
def getGFMValue {K : Type} [LinearOrderedField K] (gfLow gfHigh : K)
    (compartment : TissueCompartment K) (depth : K) (firstStopDepth : K) : K :=
  let currentMValue := getMValue compartment depth
  let gf : K :=
    if firstStopDepth ≤ 0 then gfHigh
    else gfHigh + (gfLow - gfHigh) * (depth / firstStopDepth)
  let ambientPressure := getAmbientPressure depth
  ambientPressure + gf * (currentMValue - ambientPressure)

/-- The per-compartment gradient-factor adjusted ceiling depth computed
inside the loop of `calculateCeiling`. -/
def ceilingDepthOf {K : Type} [LinearOrderedField K] (gfLow : K)
    (tissue : TissueCompartment K) : K :=
  let ambientPressure := tissue.b * (tissue.pN2 - tissue.a)
  let depth := (ambientPressure - SURFACE_PRESSURE) / METERS_TO_BAR
  depth / gfLow

/-- The accumulation loop of `calculateCeiling`: start from `0`, replace the
accumulator whenever a compartment's adjusted depth is larger. -/
def ceilingLoop {K : Type} [LinearOrderedField K] (gfLow : K) :
    List (TissueCompartment K) → K → K
  | [], maxCeiling => maxCeiling
  | tissue :: rest, maxCeiling =>
      let gfAdjustedDepth := ceilingDepthOf gfLow tissue
      ceilingLoop gfLow rest
        (if gfAdjustedDepth > maxCeiling then gfAdjustedDepth else maxCeiling)

/-- `calculateCeiling`: maximum adjusted compartment depth, rounded up to a
whole meter, with minimum 0 (`Math.max(0, Math.ceil maxCeiling)`). -/
def calculateCeiling {K : Type} [LinearOrderedField K] [FloorRing K]
    (gfLow : K) (tissues : List (TissueCompartment K)) : ℤ :=
  max 0 ⌈ceilingLoop gfLow tissues 0⌉

/-! ## Air consumption model (useAirConsumption.ts) -/

/-- The nine dive event kinds. -/
inductive DiveEventType
  | breathingRateIncrease
  | breathingRateDecrease
  | airSharing
  | airSharingEnd
  | lowAirWarning
  | criticalAirWarning
  | rapidAscent
  | safetyStopStart
  | safetyStopEnd
  deriving Repr, DecidableEq

/-- A timed dive event. -/
structure DiveEvent (K : Type) where
  time : K
  type : DiveEventType
  value : Option K := none
  message : Option String := none
  deriving Repr, DecidableEq

/-- The mutable state of the air-consumption calculator, together with its
construction parameters (which in the source are captured by the closure). -/
structure AirCalc (K : Type) where
  initialTankPressure : K
  tankVolume : K
  baseSacRate : K
  tankPressure : K
  currentSacRate : K
  totalAirConsumed : K
  sacHistory : List (K × K)
  deriving Repr, DecidableEq

/-- `useAirConsumption(initialTankPressure, tankVolume, baseSacRate)`. -/
def AirCalc.init {K : Type} [LinearOrderedField K]
    (initialTankPressure tankVolume baseSacRate : K) : AirCalc K :=
  { initialTankPressure := initialTankPressure
    tankVolume := tankVolume
    baseSacRate := baseSacRate
    tankPressure := initialTankPressure
    currentSacRate := baseSacRate
    totalAirConsumed := 0
    sacHistory := [] }

/-- `getDepthFactor(depth) = ambient(depth) / SURFACE_PRESSURE`. -/
def getDepthFactor {K : Type} [LinearOrderedField K] (depth : K) : K :=
  (SURFACE_PRESSURE + depth * METERS_TO_BAR) / SURFACE_PRESSURE

/-- `calculateConsumption`: bar drawn from the tank for a period at depth. -/
def AirCalc.calculateConsumption {K : Type} [LinearOrderedField K]
    (s : AirCalc K) (depth durationMinutes : K) : K :=
  let depthFactor := getDepthFactor depth
  let actualConsumptionRate := s.currentSacRate * depthFactor
  let litersConsumed := actualConsumptionRate * durationMinutes
  litersConsumed / s.tankVolume

/-- `consumeAir`: subtract the consumption from tank pressure (floored at 0),
accumulate it into the total, and record the SAC rate. -/
def AirCalc.consumeAir {K : Type} [LinearOrderedField K]
    (s : AirCalc K) (depth durationMinutes time : K) : AirCalc K :=
  let consumed := s.calculateConsumption depth durationMinutes
  { s with
    tankPressure := max 0 (s.tankPressure - consumed)
    totalAirConsumed := s.totalAirConsumed + consumed
    sacHistory := s.sacHistory ++ [(time, s.currentSacRate)] }

/-- `calculateRemainingAirTime`. -/
def AirCalc.calculateRemainingAirTime {K : Type} [LinearOrderedField K]
    [FloorRing K] (s : AirCalc K) (depth : K) : ℤ :=
  if s.tankPressure ≤ 0 then 0
  else
    let depthFactor := getDepthFactor depth
    let actualConsumptionRate := s.currentSacRate * depthFactor
    let remainingLiters := s.tankPressure * s.tankVolume
    ⌊remainingLiters / actualConsumptionRate⌋

/-- `averageSacRate` computed property. -/
def AirCalc.averageSacRate {K : Type} [LinearOrderedField K]
    (s : AirCalc K) : K :=
  if s.sacHistory.length = 0 then s.baseSacRate
  else (s.sacHistory.foldl (fun acc h => acc + h.2) 0) / s.sacHistory.length

/-- `applyEvent`: effect of a dive event on the current SAC rate. -/
def AirCalc.applyEvent {K : Type} [LinearOrderedField K]
    (s : AirCalc K) (event : DiveEvent K) : AirCalc K :=
  match event.type with
  | .breathingRateIncrease =>
      { s with currentSacRate := s.baseSacRate * (event.value.getD 1.5) }
  | .breathingRateDecrease => { s with currentSacRate := s.baseSacRate }
  | .airSharing => { s with currentSacRate := s.baseSacRate * 2 }
  | .airSharingEnd => { s with currentSacRate := s.baseSacRate }
  | _ => s

/-- `checkWarnings`: low air at 50 bar, critical at 20 bar. -/
def AirCalc.checkWarnings {K : Type} [LinearOrderedField K]
    (s : AirCalc K) : Bool × Bool :=
  (decide (s.tankPressure ≤ 50), decide (s.tankPressure ≤ 20))

/-! ## Decompression model: the transcendental part, over `ℝ`
(useDecompression.ts) -/

/-- Tissue state of the decompression calculator. -/
abbrev Tissues := List (TissueCompartment ℝ)

/-- Schreiner tissue-loading step:
`p + (inspired − p) * (1 − exp (−(ln 2 / halfTime) * t))`. -/
noncomputable def calculateTissueLoading
    (initialPressure inspiredPressure halfTime time : ℝ) : ℝ :=
  let k := Real.log 2 / halfTime
  initialPressure +
    (inspiredPressure - initialPressure) * (1 - Real.exp (-k * time))

/-- `updateTissues`: advance every compartment by `time` minutes at `depth`. -/
noncomputable def updateTissues (depth time : ℝ) (tissues : Tissues) : Tissues :=
  let inspiredN2 := getInspiredN2Pressure depth
  tissues.map (fun tissue =>
    { tissue with
      pN2 := calculateTissueLoading tissue.pN2 inspiredN2 tissue.halfTime time })

/-- Surface M-value `a + SURFACE_PRESSURE / b` used inside `calculateNDL`. -/
def surfaceMValue {K : Type} [LinearOrderedField K]
    (tissue : TissueCompartment K) : K :=
  tissue.a + SURFACE_PRESSURE / tissue.b

/-- The `gfHigh`-adjusted surface M-value used inside `calculateNDL`. -/
def gfSurfaceMValue {K : Type} [LinearOrderedField K] (gfHigh : K)
    (tissue : TissueCompartment K) : K :=
  SURFACE_PRESSURE + gfHigh * (surfaceMValue tissue - SURFACE_PRESSURE)

/-- The inverse-Schreiner time at which a compartment reaches its adjusted
surface M-value:  `−ln((inspired − gfM)/(inspired − pN2)) / k`. -/
noncomputable def ndlTime (gfHigh inspiredN2 : ℝ)
    (tissue : TissueCompartment ℝ) : ℝ :=
  let gfMValue := gfSurfaceMValue gfHigh tissue
  let k := Real.log 2 / tissue.halfTime
  let logTerm := Real.log ((inspiredN2 - gfMValue) / (inspiredN2 - tissue.pN2))
  Neg.neg logTerm / k

/-- The `if (ndl < minNDL) minNDL = ndl` update of the loop, with `none`
playing the role of the JS `Infinity`. -/
noncomputable def minNDLUpdate (minNDL : Option ℝ) (ndl : ℝ) : Option ℝ :=
  some (match minNDL with
        | none => ndl
        | some m => if ndl < m then ndl else m)

/-- The compartment loop of `calculateNDL`.  The accumulator mirrors the JS
variable `minNDL`: `none` plays the role of `Infinity`.  A compartment whose
`pN2` already reaches its adjusted surface M-value aborts the loop with
result `0`; a compartment whose inspired pressure does not exceed that
M-value is skipped; otherwise the inverse-Schreiner time enters the running
minimum.  On exhaustion the result is `999` if no compartment contributed,
else the floor of the minimum. -/
noncomputable def ndlLoop (gfHigh inspiredN2 : ℝ) :
    Tissues → Option ℝ → ℝ
  | [], none => 999
  | [], some minNDL => (⌊minNDL⌋ : ℤ)
  | tissue :: rest, minNDL =>
      if tissue.pN2 ≥ gfSurfaceMValue gfHigh tissue then 0
      else if inspiredN2 ≤ gfSurfaceMValue gfHigh tissue then
        ndlLoop gfHigh inspiredN2 rest minNDL
      else
        ndlLoop gfHigh inspiredN2 rest
          (minNDLUpdate minNDL (ndlTime gfHigh inspiredN2 tissue))

/-- `calculateNDL(depth)`; `none` stands for the JS value `Infinity`
returned when `depth ≤ 0`. -/
noncomputable def calculateNDL (gfHigh : ℝ) (depth : ℝ)
    (tissues : Tissues) : Option ℝ :=
  if depth ≤ 0 then none
  else some (ndlLoop gfHigh (getInspiredN2Pressure depth) tissues none)

/-! ## Deco stops (useDecompression.ts, `calculateDecoStops`) -/

/-- A mandatory decompression stop. -/
structure DecoStop where
  depth : ℝ
  duration : ℕ

/-- The `canAscend` check of the inner stop loop: no simulated compartment
may exceed its gradient-adjusted M-value at the next stop depth. -/
noncomputable def canAscendB (gfLow gfHigh firstStopDepth nextStopDepth : ℝ)
    (simTissues : Tissues) : Bool :=
  simTissues.all (fun tissue =>
    !(decide (tissue.pN2 > getGFMValue gfLow gfHigh tissue nextStopDepth firstStopDepth)))

/-- One simulated minute at the stop depth, applied to every compartment. -/
noncomputable def simulateStopMinute (inspiredN2 : ℝ) (simTissues : Tissues) :
    Tissues :=
  simTissues.map (fun tissue =>
    { tissue with
      pN2 := calculateTissueLoading tissue.pN2 inspiredN2 tissue.halfTime 1 })

/-- The inner `while (true)` loop of `calculateDecoStops`, with the JS
break condition `stopTime > 120` realized through a fuel of `121`:
`fuel = 121 − stopTime` throughout, so the loop body runs at most 121 times
and the recorded stop time never exceeds 121 minutes. -/
noncomputable def stopLoop (gfLow gfHigh firstStopDepth stopDepth inspiredN2 : ℝ) :
    ℕ → Tissues → ℕ → ℕ × Tissues
  | 0, simTissues, stopTime => (stopTime, simTissues)
  | fuel + 1, simTissues, stopTime =>
      if canAscendB gfLow gfHigh firstStopDepth (stopDepth - 3) simTissues then
        (stopTime, simTissues)
      else
        stopLoop gfLow gfHigh firstStopDepth stopDepth inspiredN2 fuel
          (simulateStopMinute inspiredN2 simTissues) (stopTime + 1)

/-- The outer loop of `calculateDecoStops`: stop depths `3*j` for
`j = n, n−1, …, 1`, threading the simulated tissues. -/
noncomputable def decoLoop (gfLow gfHigh firstStopDepth : ℝ) :
    ℕ → Tissues → List DecoStop
  | 0, _ => []
  | j + 1, simTissues =>
      (if 0 < (stopLoop gfLow gfHigh firstStopDepth (3 * ((j + 1 : ℕ) : ℝ))
            (getInspiredN2Pressure (3 * ((j + 1 : ℕ) : ℝ))) 121 simTissues 0).1
       then
        [DecoStop.mk (3 * ((j + 1 : ℕ) : ℝ))
          (stopLoop gfLow gfHigh firstStopDepth (3 * ((j + 1 : ℕ) : ℝ))
            (getInspiredN2Pressure (3 * ((j + 1 : ℕ) : ℝ))) 121 simTissues 0).1]
       else []) ++
      decoLoop gfLow gfHigh firstStopDepth j
        (stopLoop gfLow gfHigh firstStopDepth (3 * ((j + 1 : ℕ) : ℝ))
          (getInspiredN2Pressure (3 * ((j + 1 : ℕ) : ℝ))) 121 simTissues 0).2

/-- `calculateDecoStops`: no stops unless the ceiling is positive; otherwise
stops at 3 m increments from `ceil(ceiling/3)*3` down to 3 m, simulated on a
clone of the tissues. -/
noncomputable def calculateDecoStops (gfLow gfHigh : ℝ) (tissues : Tissues) :
    List DecoStop :=
  if calculateCeiling gfLow tissues ≤ 0 then []
  else
    decoLoop gfLow gfHigh
      (3 * (((⌈(calculateCeiling gfLow tissues : ℚ) / 3⌉).toNat : ℕ) : ℝ))
      (⌈(calculateCeiling gfLow tissues : ℚ) / 3⌉).toNat tissues

/-- `calculateTTS`: ascent to the ceiling, plus stop durations, plus final
ascent from the last stop (or the ceiling) at 10 m/min, rounded up. -/
noncomputable def calculateTTS (gfLow gfHigh : ℝ) (currentDepth : ℝ)
    (tissues : Tissues) : ℤ :=
  let ceiling := calculateCeiling gfLow tissues
  let ascentRate : ℝ := 10
  let ascentTime := (currentDepth - (ceiling : ℝ)) / ascentRate
  let decoStops := calculateDecoStops gfLow gfHigh tissues
  let decoTime : ℝ := decoStops.foldl (fun sum stop => sum + (stop.duration : ℝ)) 0
  let lastStopDepth : ℝ :=
    match decoStops.getLast? with
    | some stop => stop.depth
    | none => (ceiling : ℝ)
  let finalAscent := lastStopDepth / ascentRate
  ⌈ascentTime + decoTime + finalAscent⌉

/-- The per-instance state of the decompression calculator (gradient factors
plus tissue loadings); `useDecompression()` defaults are gf 0.30 / 0.85. -/
structure DecoCalc where
  tissues : Tissues
  gradientFactorLow : ℝ
  gradientFactorHigh : ℝ

/-- `getDecoState(currentDepth)`: snapshot of the decompression model. -/
structure DecoState where
  tissues : Tissues
  ndl : Option ℝ
  ceiling : ℤ
  decoStops : List DecoStop
  tts : ℤ
  gfLow : ℝ
  gfHigh : ℝ

/-- `getDecoState` in useDecompression.ts: the `ndl` field is `-1` when in
deco, and `none` encodes the JS `Infinity` (depth ≤ 0). -/
noncomputable def getDecoState (d : DecoCalc) (currentDepth : ℝ) : DecoState :=
  let ceiling := calculateCeiling d.gradientFactorLow d.tissues
  { tissues := d.tissues
    ndl :=
      if ceiling > 0 then some (-1 : ℝ)
      else calculateNDL d.gradientFactorHigh currentDepth d.tissues
    ceiling := ceiling
    decoStops :=
      if ceiling > 0 then
        calculateDecoStops d.gradientFactorLow d.gradientFactorHigh d.tissues
      else []
    tts := calculateTTS d.gradientFactorLow d.gradientFactorHigh currentDepth d.tissues
    gfLow := d.gradientFactorLow
    gfHigh := d.gradientFactorHigh }

/-- `getAirState(depth)`: snapshot of the air model; `tankPressure` and
`airConsumed` are display-rounded with `Math.round`. -/
structure AirState (K : Type) where
  initialTankPressure : K
  tankPressure : ℤ
  remainingAirTime : ℤ
  currentSacRate : K
  averageSacRate : K
  airConsumed : ℤ
  deriving DecidableEq

def AirCalc.getAirState {K : Type} [LinearOrderedField K] [FloorRing K]
    (s : AirCalc K) (depth : K) : AirState K :=
  { initialTankPressure := s.initialTankPressure
    tankPressure := jsRound s.tankPressure
    remainingAirTime := s.calculateRemainingAirTime depth
    currentSacRate := s.currentSacRate
    averageSacRate := s.averageSacRate
    airConsumed := jsRound s.totalAirConsumed }

/-! ## Dive engine (useDiveEngine.ts) -/

/-- A profile waypoint `(time minutes, depth meters)`. -/
structure Waypoint where
  time : ℝ
  depth : ℝ

/-- A dive profile (the engine only reads these fields). -/
structure DiveProfile where
  id : String
  initialTankPressure : ℝ
  tankVolume : ℝ
  sacRate : ℝ
  waypoints : List Waypoint
  events : List (DiveEvent ℝ)

inductive PlaybackState
  | stopped
  | playing
  | paused
  deriving Repr, DecidableEq

structure PlaybackControl where
  state : PlaybackState
  speed : ℝ
  currentTime : ℝ
  totalTime : ℝ
  stepSize : ℝ

/-- The bracketing-waypoint search loop of `interpolateDepth`. -/
noncomputable def interpLoop (time : ℝ) : List Waypoint → Option ℝ
  | w1 :: w2 :: rest =>
      if time ≥ w1.time ∧ time ≤ w2.time then
        some (w1.depth + (w2.depth - w1.depth) * ((time - w1.time) / (w2.time - w1.time)))
      else interpLoop time (w2 :: rest)
  | _ => none

/-- `interpolateDepth(time, waypoints)`: clamp outside the time range,
linear interpolation between the bracketing waypoints inside. -/
noncomputable def interpolateDepth (time : ℝ) (waypoints : List Waypoint) : ℝ :=
  match waypoints.head?, waypoints.getLast? with
  | some first, some last =>
      if time ≤ first.time then first.depth
      else if time ≥ last.time then last.depth
      else
        match interpLoop time waypoints with
        | some d => d
        | none => last.depth
  | _, _ => 0

/-- `calculateAscentRate` result. -/
structure AscentState (K : Type) where
  rate : K
  isViolation : Bool
  maxAllowedRate : K
  deriving DecidableEq

/-- `calculateAscentRate(previousDepth, currentDepth, timeDelta)`: the rate
is positive for descent; the published `rate` field is rounded to one
decimal with `Math.round(rate*10)/10`; the violation flag uses the
unrounded ascending rate. -/
def calculateAscentRate {K : Type} [LinearOrderedField K] [FloorRing K]
    (previousDepth currentDepth timeDelta : K) : AscentState K :=
  if timeDelta ≤ 0 then
    { rate := 0, isViolation := false, maxAllowedRate := MAX_ASCENT_RATE }
  else
    let rate := (currentDepth - previousDepth) / timeDelta
    let ascentRate := -rate
    { rate := (jsRound (rate * 10) : K) / 10
      isViolation := decide (ascentRate > MAX_ASCENT_RATE)
      maxAllowedRate := MAX_ASCENT_RATE }

/-- Safety-stop state. -/
structure SafetyStopState (K : Type) where
  required : Bool
  active : Bool
  depth : K
  duration : K
  remaining : K
  deriving DecidableEq

/-- `previousState?.active && previousState.remaining <= 0`: whether a
started safety stop has run its countdown to 0. -/
def safetyStopCompleted {K : Type} [LinearOrderedField K]
    (previousState : Option (SafetyStopState K)) : Bool :=
  match previousState with
  | some prev => prev.active && decide (prev.remaining ≤ 0)
  | none => false

/-- `calculateSafetyStopState`: required once max depth reached 10 m; active
within [4 m, 6 m]; while active the remaining seconds count down by
`timeDelta * 60`, clamped at 0; completed once remaining hits 0 while
active. -/
def calculateSafetyStopState {K : Type} [LinearOrderedField K]
    (currentDepth maxDepthReached : K)
    (previousState : Option (SafetyStopState K)) (timeDelta : K) :
    SafetyStopState K :=
  if decide (maxDepthReached ≥ 10) &&
      (decide (currentDepth ≥ 4) && decide (currentDepth ≤ 6)) then
    match previousState with
    | some prev =>
        if prev.active then
          { required := true, active := true, depth := SAFETY_STOP_DEPTH,
            duration := SAFETY_STOP_DURATION,
            remaining := max 0 (prev.remaining - timeDelta * 60) }
        else
          { required := true, active := true, depth := SAFETY_STOP_DEPTH,
            duration := SAFETY_STOP_DURATION, remaining := SAFETY_STOP_DURATION }
    | none =>
        { required := true, active := true, depth := SAFETY_STOP_DEPTH,
          duration := SAFETY_STOP_DURATION, remaining := SAFETY_STOP_DURATION }
  else
    { required := decide (maxDepthReached ≥ 10) &&
        !(safetyStopCompleted previousState),
      active := false,
      depth := SAFETY_STOP_DEPTH, duration := SAFETY_STOP_DURATION,
      remaining := if safetyStopCompleted previousState then 0
        else SAFETY_STOP_DURATION }

inductive WarningType
  | info
  | warning
  | critical
  deriving Repr, DecidableEq

structure DiveWarning where
  type : WarningType
  message : String
  code : String
  deriving Repr, DecidableEq

/-- The TypeScript literal name of an event type (the `code` field of an
event warning). -/
def DiveEventType.typeName : DiveEventType → String
  | .breathingRateIncrease => "breathingRateIncrease"
  | .breathingRateDecrease => "breathingRateDecrease"
  | .airSharing => "airSharing"
  | .airSharingEnd => "airSharingEnd"
  | .lowAirWarning => "lowAirWarning"
  | .criticalAirWarning => "criticalAirWarning"
  | .rapidAscent => "rapidAscent"
  | .safetyStopStart => "safetyStopStart"
  | .safetyStopEnd => "safetyStopEnd"

/-- `event.type.includes("critical")` over the nine literal names. -/
def typeContainsCritical : DiveEventType → Bool
  | .criticalAirWarning => true
  | _ => false

/-- `event.type.includes("Warning")` over the nine literal names. -/
def typeContainsWarning : DiveEventType → Bool
  | .lowAirWarning => true
  | .criticalAirWarning => true
  | _ => false

/-- `getActiveWarnings`: air (critical else low), fast ascent, deco ceiling,
then one warning per newly active event that carries a message. -/
def getActiveWarnings (airWarnings : Bool × Bool) (ascentState : AscentState ℝ)
    (decoState : DecoState) (activeEvents : List (DiveEvent ℝ)) :
    List DiveWarning :=
  (if airWarnings.2 then [⟨WarningType.critical, "AIR CRITIQUE", "CRITICAL_AIR"⟩]
   else if airWarnings.1 then [⟨WarningType.warning, "RESERVE", "LOW_AIR"⟩]
   else []) ++
  (if ascentState.isViolation then
    [⟨WarningType.critical, "REMONTEE TROP RAPIDE", "FAST_ASCENT"⟩]
   else []) ++
  (if decoState.ceiling > 0 then
    [⟨WarningType.warning, "PALIER " ++ toString decoState.ceiling ++ "m",
      "DECO_REQUIRED"⟩]
   else []) ++
  activeEvents.filterMap (fun event =>
    match event.message with
    | some msg =>
        some ⟨(if typeContainsCritical event.type then WarningType.critical
               else if typeContainsWarning event.type then WarningType.warning
               else WarningType.info),
              msg, event.type.typeName⟩
    | none => none)

/-- `processEvents(currentTime, events)`: fire every event whose scheduled
time is within 0.1 minutes of the current time and whose key
`(type, time)` is not yet in the processed set; firing records the key and
applies the event to the air model.  Returns the fired events, the new
processed set, and the new air state. -/
def processEvents {K : Type} [LinearOrderedField K] [DecidableEq K]
    (currentTime : K) (events : List (DiveEvent K))
    (processed : List (DiveEventType × K)) (air : AirCalc K) :
    List (DiveEvent K) × List (DiveEventType × K) × AirCalc K :=
  match events with
  | [] => ([], processed, air)
  | event :: rest =>
      if |currentTime - event.time| < 0.1 ∧ (event.type, event.time) ∉ processed then
        let r := processEvents currentTime rest
          (processed ++ [(event.type, event.time)]) (air.applyEvent event)
        (event :: r.1, r.2)
      else processEvents currentTime rest processed air

/-- The complete dive-state snapshot published after every advance. -/
structure DiveState where
  currentTime : ℝ
  currentDepth : ℝ
  maxDepth : ℝ
  deco : DecoState
  air : AirState ℝ
  ascent : AscentState ℝ
  safetyStop : SafetyStopState ℝ
  activeWarnings : List DiveWarning

/-- The full mutable state owned by `useDiveEngine` (profile, playback,
snapshot, both calculators, the processed-event set and the running max
depth). -/
structure EngineState where
  currentProfile : Option DiveProfile
  playback : PlaybackControl
  diveState : Option DiveState
  decoCalc : Option DecoCalc
  airCalc : Option (AirCalc ℝ)
  processedEvents : List (DiveEventType × ℝ)
  maxDepth : ℝ

/-- `updateDiveState(timeDelta)`: interpolate the depth at the current
playback time, round it for display/rate purposes, track max depth, fire
events, advance tissues and air at the raw depth, derive ascent and
safety-stop state, aggregate warnings and publish the snapshot. -/
noncomputable def updateDiveState (s : EngineState) (timeDelta : ℝ) :
    EngineState :=
  match s.currentProfile, s.decoCalc, s.airCalc with
  | some profile, some deco, some air =>
      let previousDepth : ℝ :=
        match s.diveState with
        | some ds => ds.currentDepth
        | none => 0
      let currentTime := s.playback.currentTime
      let currentDepthRaw := interpolateDepth currentTime profile.waypoints
      let currentDepth : ℝ := (jsRound (currentDepthRaw * 10) : ℝ) / 10
      let maxDepth' := if currentDepth > s.maxDepth then currentDepth else s.maxDepth
      let pe := processEvents currentTime profile.events s.processedEvents air
      let deco' : DecoCalc :=
        { deco with tissues := updateTissues currentDepthRaw timeDelta deco.tissues }
      let decoState := getDecoState deco' currentDepthRaw
      let air' := (pe.2.2).consumeAir currentDepthRaw timeDelta currentTime
      let airState := air'.getAirState currentDepthRaw
      let airWarnings := air'.checkWarnings
      let ascentState := calculateAscentRate previousDepth currentDepth timeDelta
      let safetyStopState := calculateSafetyStopState currentDepth maxDepth'
        (s.diveState.map DiveState.safetyStop) timeDelta
      let warnings := getActiveWarnings airWarnings ascentState decoState pe.1
      { s with
        maxDepth := maxDepth'
        processedEvents := pe.2.1
        decoCalc := some deco'
        airCalc := some air'
        diveState := some
          { currentTime := currentTime
            currentDepth := currentDepth
            maxDepth := maxDepth'
            deco := decoState
            air := airState
            ascent := ascentState
            safetyStop := safetyStopState
            activeWarnings := warnings } }
  | _, _, _ => s

/-- Overwrite the playback clock (`playback.value.currentTime = t`). -/
def withTime (s : EngineState) (t : ℝ) : EngineState :=
  { s with playback := { s.playback with currentTime := t } }

/-- Total dive time: the time of the last waypoint. -/
def profileTotalTime (profile : DiveProfile) : ℝ :=
  match profile.waypoints.getLast? with
  | some w => w.time
  | none => 0

/-- `loadProfile(profile)`: store the profile, reset playback (speed 1,
step size 10 s), zero max depth and the processed-event set, recreate both
calculators, and produce the initial snapshot with `updateDiveState(0)`. -/
noncomputable def loadProfile (s : EngineState) (profile : DiveProfile) :
    EngineState :=
  let s1 : EngineState :=
    { currentProfile := some profile
      playback :=
        { state := PlaybackState.stopped, speed := 1, currentTime := 0,
          totalTime := profileTotalTime profile, stepSize := 10 }
      diveState := s.diveState
      decoCalc := some
        { tissues := initialTissues, gradientFactorLow := 0.3,
          gradientFactorHigh := 0.85 }
      airCalc := some
        (AirCalc.init profile.initialTankPressure profile.tankVolume
          profile.sacRate)
      processedEvents := []
      maxDepth := 0 }
  updateDiveState s1 0

/-- `play()`: no-op without a profile, else switch to playing. -/
def play (s : EngineState) : EngineState :=
  match s.currentProfile with
  | none => s
  | some _ => { s with playback := { s.playback with state := PlaybackState.playing } }

/-- `pause()`. -/
def pause (s : EngineState) : EngineState :=
  { s with playback := { s.playback with state := PlaybackState.paused } }

/-- `stop()`: pause, then fully reload the current profile (if any). -/
noncomputable def stop (s : EngineState) : EngineState :=
  let s1 := pause s
  match s1.currentProfile with
  | none => s1
  | some profile => loadProfile s1 profile

/-- `stepForward()`: no-op without a profile; pause, advance the clock by
the step size (clamped to total time) and update. -/
noncomputable def stepForward (s : EngineState) : EngineState :=
  match s.currentProfile with
  | none => s
  | some _ =>
      let s1 := pause s
      let stepMinutes := s1.playback.stepSize / 60
      let newTime := min (s1.playback.currentTime + stepMinutes) s1.playback.totalTime
      updateDiveState (withTime s1 newTime) stepMinutes

/-- The replay loop of `stepBackward`: `steps` iterations of 1/60-minute
advances; iteration `i` (0-based, tracked by `done`) sets the clock to
`(i+1)/60` minutes. -/
noncomputable def stepBackLoop : ℕ → ℕ → EngineState → EngineState
  | _, 0, s => s
  | done, k + 1, s =>
      let t : ℝ := ((done + 1 : ℕ) : ℝ) * (1 / 60)
      let s' := updateDiveState (withTime s t) (1 / 60)
      stepBackLoop (done + 1) k s'

/-- The body of `stepBackward` after the no-profile guard: pause, reload
the profile and replay from 0 at 1-second resolution up to the new time.
The JS step count `Math.floor(newTime / (1/60))` equals `⌊newTime * 60⌋`. -/
noncomputable def stepBackCore (s : EngineState) (profile : DiveProfile) :
    EngineState :=
  let s1 := pause s
  let stepMinutes := s1.playback.stepSize / 60
  let newTime := max 0 (s1.playback.currentTime - stepMinutes)
  let s2 := loadProfile s1 profile
  let steps := (⌊newTime * 60⌋).toNat
  let s3 := stepBackLoop 0 steps s2
  { s3 with playback :=
    { s3.playback with currentTime := newTime, state := PlaybackState.paused } }

/-- `stepBackward()`: no-op without a profile, else the replay above. -/
noncomputable def stepBackward (s : EngineState) : EngineState :=
  match s.currentProfile with
  | none => s
  | some profile => stepBackCore s profile

/-- The replay loop of `seekTo`: advance by `min (1/60) (target − current)`
while the current time is below the target.  The JS `while` loop is bounded
because the current time reaches the target after `⌈target*60⌉` steps; the
fuel is chosen accordingly by the caller. -/
noncomputable def seekLoop (targetTime : ℝ) : ℕ → ℝ → EngineState → EngineState
  | 0, _, s => s
  | fuel + 1, currentTime, s =>
      if currentTime < targetTime then
        seekLoop targetTime fuel
          (currentTime + min (1 / 60) (targetTime - currentTime))
          (updateDiveState
            (withTime s (currentTime + min (1 / 60) (targetTime - currentTime)))
            (min (1 / 60) (targetTime - currentTime)))
      else s

/-- The body of `seekTo` after the no-profile guard and the `wasPlaying`
capture: pause, clamp the target into `[0, totalTime]`, reload the profile,
replay from 0 at 1-second resolution up to the target, and end paused. -/
noncomputable def seekCore (s : EngineState) (profile : DiveProfile)
    (time : ℝ) : EngineState :=
  { seekLoop (max 0 (min time (pause s).playback.totalTime))
      ((⌈max 0 (min time (pause s).playback.totalTime) * 60⌉).toNat + 1) 0
      (loadProfile (pause s) profile) with
    playback :=
      { (seekLoop (max 0 (min time (pause s).playback.totalTime))
          ((⌈max 0 (min time (pause s).playback.totalTime) * 60⌉).toNat + 1) 0
          (loadProfile (pause s) profile)).playback with
        state := PlaybackState.paused } }

/-- `seekTo(time)`: no-op without a profile; remember whether playback was
running, run the seek replay, and resume playing if it was playing
before. -/
noncomputable def seekTo (s : EngineState) (time : ℝ) : EngineState :=
  match s.currentProfile with
  | none => s
  | some profile =>
      if s.playback.state = PlaybackState.playing then
        play (seekCore s profile time)
      else seekCore s profile time

/-- `setSpeed(speed)`. -/
def setSpeed (s : EngineState) (speed : ℝ) : EngineState :=
  { s with playback := { s.playback with speed := speed } }

/-- `setStepSize(seconds)`. -/
def setStepSize (s : EngineState) (seconds : ℝ) : EngineState :=
  { s with playback := { s.playback with stepSize := seconds } }

/-- The engine state before any profile is loaded. -/
def engineInit : EngineState :=
  { currentProfile := none
    playback :=
      { state := PlaybackState.stopped, speed := 1, currentTime := 0,
        totalTime := 0, stepSize := 10 }
    diveState := none
    decoCalc := none
    airCalc := none
    processedEvents := []
    maxDepth := 0 }

/-! ## Theorems -/

/-! ### C1: gradient-factor interpolation in `getGFMValue` -/

/-- C1 (counterexample): the claim puts `gfHigh` at the first-stop depth and
`gfLow` at the surface, but at `depth = firstStopDepth = 3` the code uses
`gfLow`, not `gfHigh`: the returned value differs from
`ambient + gfHigh × (M − ambient)` (evaluated on the first ZHL-16C
compartment with the default factors 0.3/0.85). -/
theorem getGFMValue_claim_cex :
    getGFMValue (0.3 : ℚ) 0.85 ⟨4, 1.2599, 0.505, 1⟩ 3 3 ≠
      getAmbientPressure 3 +
        0.85 * (getMValue ⟨4, 1.2599, 0.505, 1⟩ 3 - getAmbientPressure 3) := by
  norm_num [getGFMValue, getMValue, getAmbientPressure, SURFACE_PRESSURE,
    METERS_TO_BAR]

/-- C1 (amended): `getGFMValue` returns
`ambient + gf × (M(depth) − ambient)` where, for `firstStopDepth > 0`, the
effective gradient factor is interpolated linearly and proportionally to
`depth / firstStopDepth` between `gfHigh` at the SURFACE (`depth = 0`) and
`gfLow` at the first-stop depth (`depth = firstStopDepth`); for
`firstStopDepth ≤ 0` it is `gfHigh` uniformly. -/
theorem getGFMValue_interpolation {K : Type} [LinearOrderedField K]
    (gfLow gfHigh : K) (c : TissueCompartment K) (depth firstStopDepth : K) :
    getGFMValue gfLow gfHigh c depth firstStopDepth =
      getAmbientPressure depth +
        (if firstStopDepth ≤ 0 then gfHigh
         else (1 - depth / firstStopDepth) * gfHigh +
              (depth / firstStopDepth) * gfLow) *
        (getMValue c depth - getAmbientPressure depth) := by
  unfold getGFMValue
  split_ifs with h <;> ring_nf

/-! ### C2: the ceiling formula -/

/-- Folding `max` with a shifted seed commutes out of the fold. -/
lemma foldr_max_shift {K : Type} [LinearOrderedField K]
    (l : List K) (m x : K) :
    l.foldr max (max m x) = max x (l.foldr max m) := by
  induction l with
  | nil => exact max_comm m x
  | cons a t ih => simp only [List.foldr]; rw [ih, max_left_comm]

/-- The accumulation loop of `calculateCeiling` is a `max`-fold over the
per-compartment adjusted depths. -/
lemma ceilingLoop_eq_foldr {K : Type} [LinearOrderedField K]
    (gfLow : K) (ts : List (TissueCompartment K)) :
    ∀ m : K, ceilingLoop gfLow ts m =
      (ts.map (ceilingDepthOf gfLow)).foldr max m := by
  induction ts with
  | nil => intro m; rfl
  | cons t r ih =>
      intro m
      have hsel : (if ceilingDepthOf gfLow t > m then ceilingDepthOf gfLow t else m)
          = max m (ceilingDepthOf gfLow t) := by
        rcases le_or_lt (ceilingDepthOf gfLow t) m with h | h
        · rw [if_neg (not_lt.mpr h), max_eq_left h]
        · rw [if_pos h, max_eq_right h.le]
      show ceilingLoop gfLow r _ = _
      rw [hsel, ih, foldr_max_shift]
      rfl

/-- A `max`-fold seeded with `0` is non-negative. -/
lemma foldr_max_nonneg {K : Type} [LinearOrderedField K] (l : List K) :
    0 ≤ l.foldr max 0 := by
  induction l with
  | nil => exact le_refl 0
  | cons a t ih => exact le_trans ih (le_max_right a _)

/-- C2: `calculateCeiling` equals the maximum over the compartments of
`((b × (pN2 − a)) − SURFACE_PRESSURE) / METERS_TO_BAR / gfLow`, floored at 0
(the seed of the fold) and rounded up to the next whole meter; in
particular the result is a non-negative integer number of meters. -/
theorem calculateCeiling_spec {K : Type} [LinearOrderedField K] [FloorRing K]
    (gfLow : K) (ts : List (TissueCompartment K)) :
    calculateCeiling gfLow ts =
      ⌈(ts.map (fun t =>
          (t.b * (t.pN2 - t.a) - SURFACE_PRESSURE) / METERS_TO_BAR / gfLow)).foldr
        max 0⌉ ∧
    0 ≤ calculateCeiling gfLow ts := by
  have hfun : (fun t : TissueCompartment K =>
      (t.b * (t.pN2 - t.a) - SURFACE_PRESSURE) / METERS_TO_BAR / gfLow)
      = ceilingDepthOf gfLow := rfl
  have h0 : (0 : K) ≤ (ts.map (ceilingDepthOf gfLow)).foldr max 0 :=
    foldr_max_nonneg _
  have hceil : (0 : ℤ) ≤ ⌈(ts.map (ceilingDepthOf gfLow)).foldr max 0⌉ :=
    Int.ceil_nonneg h0
  constructor
  · rw [hfun]
    unfold calculateCeiling
    rw [ceilingLoop_eq_foldr]
    exact max_eq_right hceil
  · exact le_max_left 0 _

/-! ### Engine bookkeeping lemmas -/

/-- `updateDiveState` never touches the playback control. -/
lemma updateDiveState_playback (s : EngineState) (δ : ℝ) :
    (updateDiveState s δ).playback = s.playback := by
  unfold updateDiveState
  rcases hp : s.currentProfile with _ | p <;>
    rcases hd : s.decoCalc with _ | d <;>
    rcases ha : s.airCalc with _ | a <;> simp

/-- `updateDiveState` never changes the loaded profile. -/
lemma updateDiveState_currentProfile (s : EngineState) (δ : ℝ) :
    (updateDiveState s δ).currentProfile = s.currentProfile := by
  unfold updateDiveState
  rcases hp : s.currentProfile with _ | p <;>
    rcases hd : s.decoCalc with _ | d <;>
    rcases ha : s.airCalc with _ | a <;> simp [hp]

/-- After `loadProfile` the playback control is fully rebuilt: stopped,
speed 1, time 0, step size 10 s. -/
lemma loadProfile_playback (s : EngineState) (p : DiveProfile) :
    (loadProfile s p).playback =
      { state := PlaybackState.stopped, speed := 1, currentTime := 0,
        totalTime := profileTotalTime p, stepSize := 10 } := by
  unfold loadProfile
  rw [updateDiveState_playback]

lemma loadProfile_currentProfile (s : EngineState) (p : DiveProfile) :
    (loadProfile s p).currentProfile = some p := by
  unfold loadProfile
  rw [updateDiveState_currentProfile]

/-- The seek replay loop only moves the playback clock. -/
lemma seekLoop_playback (τ : ℝ) : ∀ (f : ℕ) (c : ℝ) (s : EngineState),
    ∃ x, (seekLoop τ f c s).playback = { s.playback with currentTime := x } := by
  intro f
  induction f with
  | zero => exact fun c s => ⟨s.playback.currentTime, rfl⟩
  | succ f ih =>
      intro c s
      unfold seekLoop
      split
      · obtain ⟨x, hx⟩ := ih (c + min (1 / 60) (τ - c))
          (updateDiveState (withTime s (c + min (1 / 60) (τ - c))) (min (1 / 60) (τ - c)))
        refine ⟨x, ?_⟩
        rw [hx, updateDiveState_playback]
        rfl
      · exact ⟨s.playback.currentTime, rfl⟩

lemma seekLoop_currentProfile (τ : ℝ) : ∀ (f : ℕ) (c : ℝ) (s : EngineState),
    (seekLoop τ f c s).currentProfile = s.currentProfile := by
  intro f
  induction f with
  | zero => intro c s; rfl
  | succ f ih =>
      intro c s
      unfold seekLoop
      split
      · rw [ih, updateDiveState_currentProfile]; rfl
      · rfl

/-- The step-backward replay loop only moves the playback clock. -/
lemma stepBackLoop_playback : ∀ (k done : ℕ) (s : EngineState),
    ∃ x, (stepBackLoop done k s).playback = { s.playback with currentTime := x } := by
  intro k
  induction k with
  | zero => exact fun done s => ⟨s.playback.currentTime, rfl⟩
  | succ k ih =>
      intro done s
      unfold stepBackLoop
      obtain ⟨x, hx⟩ := ih (done + 1)
        (updateDiveState (withTime s (((done + 1 : ℕ) : ℝ) * (1 / 60))) (1 / 60))
      refine ⟨x, ?_⟩
      rw [hx, updateDiveState_playback]
      rfl

lemma play_playback (s : EngineState) :
    ∃ st, (play s).playback = { s.playback with state := st } := by
  unfold play
  rcases hp : s.currentProfile with _ | p
  · exact ⟨s.playback.state, rfl⟩
  · exact ⟨PlaybackState.playing, rfl⟩

/-- After the seek replay core, the playback is paused with speed 1 and
step size 10 (only the clock position depends on the replay). -/
lemma seekCore_playback (s : EngineState) (p : DiveProfile) (t : ℝ) :
    ∃ x, (seekCore s p t).playback =
      { state := PlaybackState.paused, speed := 1, currentTime := x,
        totalTime := profileTotalTime p, stepSize := 10 } := by
  obtain ⟨x, hx⟩ := seekLoop_playback (max 0 (min t (pause s).playback.totalTime))
    ((⌈max 0 (min t (pause s).playback.totalTime) * 60⌉).toNat + 1) 0
    (loadProfile (pause s) p)
  refine ⟨x, ?_⟩
  show { (seekLoop _ _ 0 (loadProfile (pause s) p)).playback
          with state := PlaybackState.paused } = _
  rw [hx, loadProfile_playback]

lemma seekCore_currentProfile (s : EngineState) (p : DiveProfile) (t : ℝ) :
    (seekCore s p t).currentProfile = some p := by
  show (seekLoop _ _ 0 (loadProfile (pause s) p)).currentProfile = some p
  rw [seekLoop_currentProfile, loadProfile_currentProfile]

/-- After the step-backward replay core, the playback is paused with
speed 1 and step size 10. -/
lemma stepBackCore_playback (s : EngineState) (p : DiveProfile) :
    ∃ x, (stepBackCore s p).playback =
      { state := PlaybackState.paused, speed := 1, currentTime := x,
        totalTime := profileTotalTime p, stepSize := 10 } := by
  obtain ⟨y, hy⟩ := stepBackLoop_playback
    ((⌊max 0 ((pause s).playback.currentTime - (pause s).playback.stepSize / 60)
        * 60⌋).toNat) 0 (loadProfile (pause s) p)
  refine ⟨max 0 ((pause s).playback.currentTime -
    (pause s).playback.stepSize / 60), ?_⟩
  have hred : (stepBackCore s p).playback =
      { (stepBackLoop 0
          ((⌊max 0 ((pause s).playback.currentTime -
              (pause s).playback.stepSize / 60) * 60⌋).toNat)
          (loadProfile (pause s) p)).playback with
        currentTime := max 0 ((pause s).playback.currentTime -
          (pause s).playback.stepSize / 60),
        state := PlaybackState.paused } := rfl
  rw [hred, hy, loadProfile_playback]

/-! ### C9: operations before a profile is loaded are no-ops -/

/-- C9: before any profile has been loaded (`currentProfile = none`),
`play`, `stepForward`, `stepBackward` and `seekTo t` all leave the engine
state (including the `none` dive state) unchanged, for every `t`. -/
theorem ops_noop_before_load (s : EngineState) (t : ℝ)
    (h : s.currentProfile = none) :
    play s = s ∧ stepForward s = s ∧ stepBackward s = s ∧ seekTo s t = s := by
  refine ⟨?_, ?_, ?_, ?_⟩
  · unfold play; rw [h]
  · unfold stepForward; rw [h]
  · unfold stepBackward; rw [h]
  · unfold seekTo; rw [h]

/-- C9 (witness): the operations are no-ops on the initial engine state. -/
theorem ops_noop_before_load_witness :
    play engineInit = engineInit ∧ stepForward engineInit = engineInit ∧
    stepBackward engineInit = engineInit ∧ seekTo engineInit 5 = engineInit :=
  ops_noop_before_load engineInit 5 rfl

/-! ### C10: stop / seekTo / stepBackward reset speed and step size -/

/-- C10: on a loaded profile, `stop`, `seekTo t` and `stepBackward` all
reload the profile, so the playback speed comes back to 1 and the step size
to 10 seconds, regardless of any earlier `setSpeed` / `setStepSize`. -/
theorem reload_resets_speed_and_step (s : EngineState) (p : DiveProfile)
    (t : ℝ) (h : s.currentProfile = some p) :
    ((stop s).playback.speed = 1 ∧ (stop s).playback.stepSize = 10) ∧
    ((seekTo s t).playback.speed = 1 ∧ (seekTo s t).playback.stepSize = 10) ∧
    ((stepBackward s).playback.speed = 1 ∧
      (stepBackward s).playback.stepSize = 10) := by
  have hp : (pause s).currentProfile = some p := h
  have hstop : (stop s).playback.speed = 1 ∧ (stop s).playback.stepSize = 10 := by
    simp [stop, hp, loadProfile_playback]
  have hseek : (seekTo s t).playback.speed = 1 ∧
      (seekTo s t).playback.stepSize = 10 := by
    obtain ⟨x, hx⟩ := seekCore_playback s p t
    simp only [seekTo, h]
    split
    · obtain ⟨st, hst⟩ := play_playback (seekCore s p t)
      rw [hst, hx]
      exact ⟨rfl, rfl⟩
    · rw [hx]
      exact ⟨rfl, rfl⟩
  have hback : (stepBackward s).playback.speed = 1 ∧
      (stepBackward s).playback.stepSize = 10 := by
    obtain ⟨x, hb⟩ := stepBackCore_playback s p
    simp only [stepBackward, h]
    rw [hb]
    exact ⟨rfl, rfl⟩
  exact ⟨hstop, hseek, hback⟩

/-- A minimal profile used by witnesses. -/
def witnessProfile : DiveProfile :=
  { id := "w", initialTankPressure := 200, tankVolume := 12, sacRate := 20,
    waypoints := [], events := [] }

/-- An engine state with `witnessProfile` loaded into the profile slot. -/
def witnessLoaded : EngineState :=
  { engineInit with currentProfile := some witnessProfile }

/-- C10 (witness): instantiation on a concrete loaded state. -/
theorem reload_resets_speed_and_step_witness :
    ((stop witnessLoaded).playback.speed = 1 ∧
      (stop witnessLoaded).playback.stepSize = 10) ∧
    ((seekTo witnessLoaded 0).playback.speed = 1 ∧
      (seekTo witnessLoaded 0).playback.stepSize = 10) ∧
    ((stepBackward witnessLoaded).playback.speed = 1 ∧
      (stepBackward witnessLoaded).playback.stepSize = 10) :=
  reload_resets_speed_and_step witnessLoaded witnessProfile 0 rfl

/-! ### C7: ascent rate and violation flag -/

/-- C7 (counterexample): the published `rate` field is the raw rate rounded
to one decimal (`Math.round(rate*10)/10`), so for `previousDepth = 0`,
`currentDepth = 1`, `delta = 3` the function returns `0.3`, not the raw
rate `1/3` stated by the claim. -/
theorem calculateAscentRate_claim_cex :
    (calculateAscentRate (0 : ℚ) 1 3).rate ≠ (1 - 0) / 3 := by
  norm_num [calculateAscentRate, jsRound, MAX_ASCENT_RATE]

/-- C7 (amended): for `delta > 0`, `calculateAscentRate` returns the rate
`(currentDepth − previousDepth)/delta` (positive = descent) rounded to the
nearest 0.1, and flags a violation exactly when the unrounded ascending
rate exceeds 10 m/min; concretely `(20, 9, 1)` gives rate −11 with a
violation and `(20, 11, 1)` gives rate −9 without. -/
theorem calculateAscentRate_spec (prev cur δ : ℚ) (h : 0 < δ) :
    (calculateAscentRate prev cur δ).rate =
      ((jsRound (((cur - prev) / δ) * 10) : ℤ) : ℚ) / 10 ∧
    ((calculateAscentRate prev cur δ).isViolation = true ↔
      10 < -((cur - prev) / δ)) ∧
    (calculateAscentRate prev cur δ).maxAllowedRate = 10 ∧
    calculateAscentRate (20 : ℚ) 9 1 =
      { rate := -11, isViolation := true, maxAllowedRate := 10 } ∧
    calculateAscentRate (20 : ℚ) 11 1 =
      { rate := -9, isViolation := false, maxAllowedRate := 10 } := by
  have hδ : ¬ δ ≤ 0 := not_le.mpr h
  refine ⟨?_, ?_, ?_, ?_, ?_⟩
  · simp [calculateAscentRate, hδ]
  · simp [calculateAscentRate, hδ, MAX_ASCENT_RATE]
  · simp [calculateAscentRate, hδ, MAX_ASCENT_RATE]
  · norm_num [calculateAscentRate, jsRound, MAX_ASCENT_RATE,
      AscentState.mk.injEq]
  · norm_num [calculateAscentRate, jsRound, MAX_ASCENT_RATE,
      AscentState.mk.injEq]

/-- C7 (witness): the amended theorem applied at `(20, 9, 1)`. -/
theorem calculateAscentRate_spec_witness :
    (calculateAscentRate (20 : ℚ) 9 1).rate =
      ((jsRound (((9 - 20) / 1 : ℚ) * 10) : ℤ) : ℚ) / 10 ∧
    ((calculateAscentRate (20 : ℚ) 9 1).isViolation = true ↔
      10 < -(((9 : ℚ) - 20) / 1)) ∧
    (calculateAscentRate (20 : ℚ) 9 1).maxAllowedRate = 10 ∧
    calculateAscentRate (20 : ℚ) 9 1 =
      { rate := -11, isViolation := true, maxAllowedRate := 10 } ∧
    calculateAscentRate (20 : ℚ) 11 1 =
      { rate := -9, isViolation := false, maxAllowedRate := 10 } :=
  calculateAscentRate_spec 20 9 1 (by norm_num)

/-! ### C6: air conservation -/

/-- C6 (counterexample): conservation fails once the tank is driven past
empty: starting from 1 bar in a 1 L tank and consuming for 2 minutes at the
surface at 1 L/min leaves `initial − tankPressure = 1` but
`totalAirConsumed = 2`. -/
theorem consumeAir_conservation_cex :
    ((AirCalc.init (1 : ℚ) 1 1).consumeAir 0 2 0).initialTankPressure -
      ((AirCalc.init (1 : ℚ) 1 1).consumeAir 0 2 0).tankPressure ≠
    ((AirCalc.init (1 : ℚ) 1 1).consumeAir 0 2 0).totalAirConsumed := by
  norm_num [AirCalc.init, AirCalc.consumeAir, AirCalc.calculateConsumption,
    getDepthFactor, SURFACE_PRESSURE, METERS_TO_BAR]

/-- C6 (amended): each `consumeAir` call subtracts the interval consumption
(rate × depth factor × duration / tankVolume) from the tank pressure,
floored at 0, and accumulates the same amount into the total consumed.
Consequently `tankPressure = max 0 (initial − totalConsumed)` is an
invariant, and `initial − tankPressure = totalConsumed` holds exactly while
the accumulated total has not exceeded the initial pressure (it can fail
after the tank hits the 0 floor). -/
theorem consumeAir_conservation (s : AirCalc ℚ) (depth dur time : ℚ)
    (hinv : s.tankPressure = max 0 (s.initialTankPressure - s.totalAirConsumed))
    (hdepth : 0 ≤ depth) (hdur : 0 ≤ dur)
    (hrate : 0 ≤ s.currentSacRate) (hvol : 0 < s.tankVolume) :
    (s.consumeAir depth dur time).tankPressure =
      max 0 ((s.consumeAir depth dur time).initialTankPressure -
        (s.consumeAir depth dur time).totalAirConsumed) ∧
    ((s.consumeAir depth dur time).totalAirConsumed ≤
        (s.consumeAir depth dur time).initialTankPressure →
      (s.consumeAir depth dur time).initialTankPressure -
          (s.consumeAir depth dur time).tankPressure =
        (s.consumeAir depth dur time).totalAirConsumed) := by
  have hfac : (0 : ℚ) ≤ getDepthFactor depth := by
    unfold getDepthFactor SURFACE_PRESSURE METERS_TO_BAR
    positivity
  have hc : 0 ≤ s.calculateConsumption depth dur := by
    unfold AirCalc.calculateConsumption
    exact div_nonneg (mul_nonneg (mul_nonneg hrate hfac) hdur) hvol.le
  set c := s.calculateConsumption depth dur with hcdef
  have htank : (s.consumeAir depth dur time).tankPressure =
      max 0 (s.tankPressure - c) := rfl
  have htot : (s.consumeAir depth dur time).totalAirConsumed =
      s.totalAirConsumed + c := rfl
  have hinit : (s.consumeAir depth dur time).initialTankPressure =
      s.initialTankPressure := rfl
  have hmain : max 0 (s.tankPressure - c) =
      max 0 (s.initialTankPressure - (s.totalAirConsumed + c)) := by
    rw [hinv]
    rcases le_total (s.initialTankPressure - s.totalAirConsumed) 0 with hle | hle
    · rw [max_eq_left hle, max_eq_left (by linarith), max_eq_left (by linarith)]
    · rw [max_eq_right hle]
      congr 1
      ring
  constructor
  · rw [htank, htot, hinit, hmain]
  · intro hle
    rw [htot, hinit] at hle
    rw [htank, htot, hinit, hmain, max_eq_right (by linarith)]
    ring

/-- C6 (witness): the invariant step applied to a freshly initialized
calculator (200 bar, 12 L, 20 L/min) for one minute at the surface. -/
theorem consumeAir_conservation_witness :
    ((AirCalc.init (200 : ℚ) 12 20).consumeAir 0 1 0).tankPressure =
      max 0 (((AirCalc.init (200 : ℚ) 12 20).consumeAir 0 1 0).initialTankPressure -
        ((AirCalc.init (200 : ℚ) 12 20).consumeAir 0 1 0).totalAirConsumed) ∧
    (((AirCalc.init (200 : ℚ) 12 20).consumeAir 0 1 0).totalAirConsumed ≤
        ((AirCalc.init (200 : ℚ) 12 20).consumeAir 0 1 0).initialTankPressure →
      ((AirCalc.init (200 : ℚ) 12 20).consumeAir 0 1 0).initialTankPressure -
          ((AirCalc.init (200 : ℚ) 12 20).consumeAir 0 1 0).tankPressure =
        ((AirCalc.init (200 : ℚ) 12 20).consumeAir 0 1 0).totalAirConsumed) :=
  consumeAir_conservation (AirCalc.init 200 12 20) 0 1 0
    (by norm_num [AirCalc.init]) (by norm_num) (by norm_num)
    (by norm_num [AirCalc.init]) (by norm_num [AirCalc.init])

/-! ### C5: event idempotency -/

/-- The processed-event set only grows across `processEvents`. -/
lemma processEvents_processed_grows {K : Type} [LinearOrderedField K]
    [DecidableEq K] :
    ∀ (events : List (DiveEvent K)) (t : K)
      (processed : List (DiveEventType × K)) (air : AirCalc K)
      (k : DiveEventType × K), k ∈ processed →
      k ∈ (processEvents t events processed air).2.1 := by
  intro events
  induction events with
  | nil => intro t processed air k hk; exact hk
  | cons e rest ih =>
      intro t processed air k hk
      unfold processEvents
      split
      · exact ih t (processed ++ [(e.type, e.time)]) (air.applyEvent e) k
          (List.mem_append_left _ hk)
      · exact ih t processed air k hk

/-- Every fired event was inside the 0.1-minute window and not yet
processed. -/
lemma processEvents_fired_cond {K : Type} [LinearOrderedField K]
    [DecidableEq K] :
    ∀ (events : List (DiveEvent K)) (t : K)
      (processed : List (DiveEventType × K)) (air : AirCalc K),
      ∀ e ∈ (processEvents t events processed air).1,
        |t - e.time| < 0.1 ∧ (e.type, e.time) ∉ processed := by
  intro events
  induction events with
  | nil => intro t processed air e he; exact absurd he (List.not_mem_nil e)
  | cons ev rest ih =>
      intro t processed air e he
      rw [processEvents] at he
      split at he
      · rename_i hcond
        rcases List.mem_cons.mp he with rfl | hmem
        · exact hcond
        · have h2 := ih t (processed ++ [(ev.type, ev.time)])
            (air.applyEvent ev) e hmem
          exact ⟨h2.1, fun hmem2 => h2.2 (List.mem_append_left _ hmem2)⟩
      · exact ih t processed air e he

/-- Every fired event has its key recorded in the returned processed set. -/
lemma processEvents_fired_recorded {K : Type} [LinearOrderedField K]
    [DecidableEq K] :
    ∀ (events : List (DiveEvent K)) (t : K)
      (processed : List (DiveEventType × K)) (air : AirCalc K),
      ∀ e ∈ (processEvents t events processed air).1,
        (e.type, e.time) ∈ (processEvents t events processed air).2.1 := by
  intro events
  induction events with
  | nil => intro t processed air e he; exact absurd he (List.not_mem_nil e)
  | cons ev rest ih =>
      intro t processed air e he
      rw [processEvents] at he ⊢
      split at he
      · rename_i hcond
        rw [if_pos hcond] at *
        rcases List.mem_cons.mp he with rfl | hmem
        · exact processEvents_processed_grows rest t _ _ _
            (List.mem_append_right _ (List.mem_singleton.mpr rfl))
        · exact ih t _ _ e hmem
      · rename_i hcond
        rw [if_neg hcond]
        exact ih t processed air e he

/-- C5: an event (keyed by type and scheduled time) is applied only when
the simulated time is within 0.1 minutes of its scheduled time and its key
is not yet in the processed-event set; every fired key is recorded, so a
later pass cannot refire it.  In particular an `airSharing` event sets the
SAC rate to exactly `2 × baseline`, and a second pass through a nearby time
leaves the rate at `2 × baseline` (never `4 ×`) and fires nothing. -/
theorem processEvents_fire_once {K : Type} [LinearOrderedField K]
    [DecidableEq K] (t : K) (events : List (DiveEvent K))
    (processed : List (DiveEventType × K)) (air : AirCalc K) :
    (∀ e ∈ (processEvents t events processed air).1,
        |t - e.time| < 0.1 ∧ (e.type, e.time) ∉ processed) ∧
    (∀ e ∈ (processEvents t events processed air).1,
        (e.type, e.time) ∈ (processEvents t events processed air).2.1) ∧
    (∀ e : DiveEvent K, e.type = DiveEventType.airSharing →
      ∀ t1 t2 : K, |t1 - e.time| < 0.1 →
        (processEvents t1 [e] [] air).2.2.currentSacRate =
          air.baseSacRate * 2 ∧
        (processEvents t2 [e] (processEvents t1 [e] [] air).2.1
            (processEvents t1 [e] [] air).2.2).2.2.currentSacRate =
          air.baseSacRate * 2 ∧
        (processEvents t2 [e] (processEvents t1 [e] [] air).2.1
            (processEvents t1 [e] [] air).2.2).1 = []) := by
  refine ⟨processEvents_fired_cond events t processed air,
    processEvents_fired_recorded events t processed air, ?_⟩
  intro e htype t1 t2 ht1
  have hfirst : processEvents t1 [e] ([] : List (DiveEventType × K)) air =
      ([e], [(e.type, e.time)], air.applyEvent e) := by
    rw [processEvents, if_pos ⟨ht1, List.not_mem_nil _⟩, processEvents]
    rfl
  have happly : (air.applyEvent e).currentSacRate = air.baseSacRate * 2 := by
    unfold AirCalc.applyEvent
    rw [htype]
  have hbase : (air.applyEvent e).baseSacRate = air.baseSacRate := by
    unfold AirCalc.applyEvent
    rw [htype]
  have hsecond : processEvents t2 [e] [(e.type, e.time)] (air.applyEvent e) =
      ([], [(e.type, e.time)], air.applyEvent e) := by
    rw [processEvents, if_neg, processEvents]
    intro hcontra
    exact hcontra.2 (List.mem_singleton.mpr rfl)
  rw [hfirst]
  exact ⟨happly, by rw [hsecond]; exact happly, by rw [hsecond]⟩

/-- C5 (witness): a concrete `airSharing` event at t = 10 min, fired at
time 10 and revisited at time 10.05, on a 20 L/min baseline. -/
theorem processEvents_fire_once_witness :
    (processEvents (10 : ℚ)
        [{ time := 10, type := DiveEventType.airSharing }] []
        (AirCalc.init 200 12 20)).2.2.currentSacRate =
      (AirCalc.init (200 : ℚ) 12 20).baseSacRate * 2 ∧
    (processEvents (10.05 : ℚ)
        [{ time := 10, type := DiveEventType.airSharing }]
        (processEvents (10 : ℚ)
          [{ time := 10, type := DiveEventType.airSharing }] []
          (AirCalc.init 200 12 20)).2.1
        (processEvents (10 : ℚ)
          [{ time := 10, type := DiveEventType.airSharing }] []
          (AirCalc.init 200 12 20)).2.2).2.2.currentSacRate =
      (AirCalc.init (200 : ℚ) 12 20).baseSacRate * 2 ∧
    (processEvents (10.05 : ℚ)
        [{ time := 10, type := DiveEventType.airSharing }]
        (processEvents (10 : ℚ)
          [{ time := 10, type := DiveEventType.airSharing }] []
          (AirCalc.init 200 12 20)).2.1
        (processEvents (10 : ℚ)
          [{ time := 10, type := DiveEventType.airSharing }] []
          (AirCalc.init 200 12 20)).2.2).1 = [] :=
  (processEvents_fire_once (10 : ℚ)
      [{ time := 10, type := DiveEventType.airSharing }] []
      (AirCalc.init 200 12 20)).2.2
    { time := 10, type := DiveEventType.airSharing } rfl 10 10.05
    (by norm_num)

/-! ### C3: the NDL computation -/

/-- What `calculateNDL` returns from the final value of `minNDL`:
999 when no compartment constrained the dive, else the floor. -/
noncomputable def finishNDL : Option ℝ → ℝ
  | none => 999
  | some m => ((⌊m⌋ : ℤ) : ℝ)

/-- Minimum of two optional values (`none` = no constraint yet). -/
noncomputable def optMin : Option ℝ → Option ℝ → Option ℝ
  | none, b => b
  | some a, none => some a
  | some a, some b => some (min a b)

/-- Minimum of a list of reals, `none` on the empty list. -/
noncomputable def listMin : List ℝ → Option ℝ
  | [] => none
  | x :: l => optMin (some x) (listMin l)

lemma optMin_none_right (a : Option ℝ) : optMin a none = a := by
  cases a <;> rfl

lemma optMin_assoc (a b c : Option ℝ) :
    optMin (optMin a b) c = optMin a (optMin b c) := by
  cases a <;> cases b <;> cases c <;> simp [optMin, min_assoc]

/-- The `minNDL` update in the loop is an optional minimum. -/
lemma ndl_acc_step (acc : Option ℝ) (x : ℝ) :
    minNDLUpdate acc x = optMin acc (some x) := by
  cases acc with
  | none => rfl
  | some m =>
      show some (if x < m then x else m) = some (min m x)
      rcases lt_or_le x m with h | h
      · rw [if_pos h, min_eq_right h.le]
      · rw [if_neg (not_lt.mpr h), min_eq_left h]

/-- If some compartment already reaches its adjusted surface M-value, the
loop aborts with 0. -/
lemma ndlLoop_zero (gh insp : ℝ) :
    ∀ (ts : Tissues) (acc : Option ℝ),
      (∃ t ∈ ts, gfSurfaceMValue gh t ≤ t.pN2) →
      ndlLoop gh insp ts acc = 0 := by
  intro ts
  induction ts with
  | nil => intro acc h; obtain ⟨t, ht, _⟩ := h; exact absurd ht (List.not_mem_nil t)
  | cons t rest ih =>
      intro acc h
      rw [ndlLoop]
      by_cases hhead : t.pN2 ≥ gfSurfaceMValue gh t
      · rw [if_pos hhead]
      · rw [if_neg hhead]
        obtain ⟨u, hu, hexc⟩ := h
        rcases List.mem_cons.mp hu with rfl | hmem
        · exact absurd hexc hhead
        · by_cases hskip : insp ≤ gfSurfaceMValue gh t
          · rw [if_pos hskip]; exact ih acc ⟨u, hmem, hexc⟩
          · rw [if_neg hskip]; exact ih _ ⟨u, hmem, hexc⟩

/-- When no compartment exceeds its adjusted surface M-value, the loop is
the floor of the optional minimum of the inverse-Schreiner times over the
compartments whose inspired pressure exceeds that M-value. -/
lemma ndlLoop_char (gh insp : ℝ) :
    ∀ (ts : Tissues) (acc : Option ℝ),
      (∀ t ∈ ts, t.pN2 < gfSurfaceMValue gh t) →
      ndlLoop gh insp ts acc =
        finishNDL (optMin acc
          (listMin ((ts.filter (fun t =>
            decide (gfSurfaceMValue gh t < insp))).map (ndlTime gh insp)))) := by
  intro ts
  induction ts with
  | nil =>
      intro acc hsafe
      rw [List.filter_nil, List.map_nil,
        show listMin [] = none from rfl, optMin_none_right]
      cases acc <;> rfl
  | cons t rest ih =>
      intro acc hsafe
      have hts : t.pN2 < gfSurfaceMValue gh t := hsafe t (List.mem_cons_self t rest)
      have hrest : ∀ u ∈ rest, u.pN2 < gfSurfaceMValue gh u :=
        fun u hu => hsafe u (List.mem_cons_of_mem t hu)
      rw [ndlLoop, if_neg (not_le.mpr hts)]
      by_cases hskip : insp ≤ gfSurfaceMValue gh t
      · rw [if_pos hskip, ih acc hrest]
        have hfil : List.filter (fun u => decide (gfSurfaceMValue gh u < insp))
              (t :: rest)
            = List.filter (fun u => decide (gfSurfaceMValue gh u < insp)) rest := by
          rw [List.filter_cons]
          simp only [decide_eq_true_eq]
          rw [if_neg (not_lt.mpr hskip)]
        rw [hfil]
      · rw [if_neg hskip, ih _ hrest, ndl_acc_step]
        have hfil : List.filter (fun u => decide (gfSurfaceMValue gh u < insp))
              (t :: rest)
            = t :: List.filter (fun u => decide (gfSurfaceMValue gh u < insp))
                rest := by
          rw [List.filter_cons]
          simp only [decide_eq_true_eq]
          rw [if_pos (not_le.mp hskip)]
        rw [hfil, List.map_cons, listMin, optMin_assoc]

/-- C3: `calculateNDL` is `Infinity` (`none`) for `depth ≤ 0`; for positive
depth it is 0 as soon as some compartment already reaches its
`gfHigh`-adjusted surface M-value; otherwise it is the floor of the minimum
inverse-Schreiner time over the compartments whose inspired pressure at the
depth exceeds their adjusted surface M-value (the others impose no limit),
with `999` when no compartment constrains the dive. -/
theorem calculateNDL_spec (gh depth : ℝ) (ts : Tissues) :
    (depth ≤ 0 → calculateNDL gh depth ts = none) ∧
    (0 < depth → (∃ t ∈ ts, gfSurfaceMValue gh t ≤ t.pN2) →
      calculateNDL gh depth ts = some 0) ∧
    (0 < depth → (∀ t ∈ ts, t.pN2 < gfSurfaceMValue gh t) →
      calculateNDL gh depth ts =
        some (finishNDL (listMin ((ts.filter (fun t =>
          decide (gfSurfaceMValue gh t < getInspiredN2Pressure depth))).map
            (ndlTime gh (getInspiredN2Pressure depth)))))) := by
  refine ⟨?_, ?_, ?_⟩
  · intro h
    rw [calculateNDL, if_pos h]
  · intro hpos hexc
    rw [calculateNDL, if_neg (not_le.mpr hpos),
      ndlLoop_zero gh (getInspiredN2Pressure depth) ts none hexc]
  · intro hpos hsafe
    rw [calculateNDL, if_neg (not_le.mpr hpos),
      ndlLoop_char gh (getInspiredN2Pressure depth) ts none hsafe]
    rfl

/-- C3 (witness): at depth −1 the NDL is unbounded; at depth 5 a
compartment at `pN2 = 2` bar (adjusted surface M-value 1.013) forces NDL 0;
with no compartments the loop returns the 999 cap. -/
theorem calculateNDL_spec_witness :
    calculateNDL 0.85 (-1) [] = none ∧
    calculateNDL 0.85 5 [⟨1, 0, 1, 2⟩] = some 0 ∧
    calculateNDL 0.85 5 [] =
      some (finishNDL (listMin ((([] : Tissues).filter (fun t =>
        decide (gfSurfaceMValue 0.85 t < getInspiredN2Pressure 5))).map
          (ndlTime 0.85 (getInspiredN2Pressure 5))))) :=
  ⟨(calculateNDL_spec 0.85 (-1) []).1 (by norm_num),
   (calculateNDL_spec 0.85 5 [⟨1, 0, 1, 2⟩]).2.1 (by norm_num)
     ⟨⟨1, 0, 1, 2⟩, List.mem_singleton.mpr rfl,
      by norm_num [gfSurfaceMValue, surfaceMValue, SURFACE_PRESSURE]⟩,
   (calculateNDL_spec 0.85 5 []).2.2 (by norm_num)
     (fun t ht => absurd ht (List.not_mem_nil t))⟩

/-! ### C4: deco-stop structure and the duration cap -/

/-- The inner stop loop can add at most `fuel` minutes to the accumulated
stop time (it is called with fuel 121). -/
lemma stopLoop_le (gl gh first sd insp : ℝ) :
    ∀ (fuel : ℕ) (ts : Tissues) (acc : ℕ),
      (stopLoop gl gh first sd insp fuel ts acc).1 ≤ acc + fuel := by
  intro fuel
  induction fuel with
  | zero => intro ts acc; exact Nat.le_add_right acc 0
  | succ fuel ih =>
      intro ts acc
      rw [stopLoop]
      split
      · exact Nat.le_add_right acc (fuel + 1)
      · calc (stopLoop gl gh first sd insp fuel
              (simulateStopMinute insp ts) (acc + 1)).1
            ≤ (acc + 1) + fuel := ih _ (acc + 1)
          _ = acc + (fuel + 1) := by omega

/-- Every stop recorded by the outer loop sits at a positive multiple of
3 m bounded by the loop counter, and lasts between 1 and 121 minutes. -/
lemma decoLoop_mem (gl gh first : ℝ) :
    ∀ (n : ℕ) (ts : Tissues) (s : DecoStop), s ∈ decoLoop gl gh first n ts →
      ∃ j : ℕ, 1 ≤ j ∧ j ≤ n ∧ s.depth = 3 * (j : ℝ) ∧
        0 < s.duration ∧ s.duration ≤ 121 := by
  intro n
  induction n with
  | zero => intro ts s hs; exact absurd hs (List.not_mem_nil s)
  | succ n ih =>
      intro ts s hs
      rw [decoLoop] at hs
      rcases List.mem_append.mp hs with h1 | h2
      · rcases Classical.em (0 < (stopLoop gl gh first (3 * ((n + 1 : ℕ) : ℝ))
            (getInspiredN2Pressure (3 * ((n + 1 : ℕ) : ℝ))) 121 ts 0).1) with
          hpos | hneg
        · rw [if_pos hpos] at h1
          rcases List.mem_singleton.mp h1 with rfl
          refine ⟨n + 1, Nat.le_add_left 1 n, le_refl _, rfl, hpos, ?_⟩
          simpa using stopLoop_le gl gh first (3 * ((n + 1 : ℕ) : ℝ))
            (getInspiredN2Pressure (3 * ((n + 1 : ℕ) : ℝ))) 121 ts 0
        · rw [if_neg hneg] at h1
          exact absurd h1 (List.not_mem_nil s)
      · obtain ⟨j, hj1, hjn, hdep, hdur⟩ := ih _ s h2
        exact ⟨j, hj1, Nat.le_succ_of_le hjn, hdep, hdur⟩

/-- The stop depths produced by the outer loop are strictly descending. -/
lemma decoLoop_pairwise (gl gh first : ℝ) :
    ∀ (n : ℕ) (ts : Tissues),
      List.Pairwise (fun a b => b.depth < a.depth) (decoLoop gl gh first n ts) := by
  intro n
  induction n with
  | zero => intro ts; exact List.Pairwise.nil
  | succ n ih =>
      intro ts
      rw [decoLoop]
      split
      · rw [List.singleton_append]
        refine List.pairwise_cons.mpr ⟨?_, ih _⟩
        intro b hb
        obtain ⟨j, hj1, hjn, hdep, _, _⟩ := decoLoop_mem gl gh first n _ b hb
        rw [hdep]
        show (3 : ℝ) * (j : ℝ) < 3 * ((n + 1 : ℕ) : ℝ)
        have hcast : (j : ℝ) < ((n + 1 : ℕ) : ℝ) := by
          exact_mod_cast Nat.lt_succ_of_le hjn
        linarith
      · rw [List.nil_append]
        exact ih _

/-- C4 (amended): `calculateDecoStops` is a total function (the inner loop
is bounded by the 121-iteration fuel realizing the JS `stopTime > 120`
break).  Every returned stop sits at a positive multiple of 3 m not above
`ceil(ceiling/3)×3`, the stop depths are strictly descending, only stops
with positive duration are recorded, and no recorded duration exceeds 121
minutes (the code increments past the 120-minute check once, so 121 — not
120 — is the tight cap). -/
theorem calculateDecoStops_spec (gfLow gfHigh : ℝ) (ts : Tissues) :
    List.Pairwise (fun a b => b.depth < a.depth)
      (calculateDecoStops gfLow gfHigh ts) ∧
    ∀ s ∈ calculateDecoStops gfLow gfHigh ts,
      ∃ j : ℕ, 1 ≤ j ∧ j ≤ (⌈(calculateCeiling gfLow ts : ℚ) / 3⌉).toNat ∧
        s.depth = 3 * (j : ℝ) ∧ 0 < s.duration ∧ s.duration ≤ 121 := by
  unfold calculateDecoStops
  split
  · exact ⟨List.Pairwise.nil, fun s hs => absurd hs (List.not_mem_nil s)⟩
  · exact ⟨decoLoop_pairwise gfLow gfHigh _ _ ts,
      fun s hs => decoLoop_mem gfLow gfHigh _ _ ts s hs⟩

/-- C4 (witness): the amended theorem applied to the empty tissue list. -/
theorem calculateDecoStops_spec_witness :
    List.Pairwise (fun a b => b.depth < a.depth)
      (calculateDecoStops 0.3 0.85 []) :=
  (calculateDecoStops_spec 0.3 0.85 []).1

/-- If an invariant `P` (indexed by the remaining fuel) forbids ascent and
is preserved by one simulated minute, the inner stop loop burns all its
fuel: the recorded time is `acc + fuel`. -/
lemma stopLoop_stuck (gl gh first sd insp : ℝ) (P : ℕ → Tissues → Prop)
    (hcan : ∀ (n : ℕ) (ts : Tissues), P (n + 1) ts →
      canAscendB gl gh first (sd - 3) ts = false)
    (hstep : ∀ (n : ℕ) (ts : Tissues), P (n + 1) ts →
      P n (simulateStopMinute insp ts)) :
    ∀ (fuel : ℕ) (ts : Tissues) (acc : ℕ), P fuel ts →
      (stopLoop gl gh first sd insp fuel ts acc).1 = acc + fuel := by
  intro fuel
  induction fuel with
  | zero => intro ts acc _; rfl
  | succ fuel ih =>
      intro ts acc hP
      rw [stopLoop, hcan fuel ts hP, if_neg Bool.false_ne_true]
      rw [ih (simulateStopMinute insp ts) (acc + 1) (hstep fuel ts hP)]
      omega

/-- The gradient-adjusted M-value at the surface for the stuck
counterexample compartment (a = 10, b = 1): 9.513 bar, independent of the
compartment loading. -/
lemma cex_gfm (p : ℝ) :
    getGFMValue 0.3 0.85 ⟨1000000, 10, 1, p⟩ 0 3 = 9.513 := by
  norm_num [getGFMValue, getMValue, getAmbientPressure, SURFACE_PRESSURE,
    METERS_TO_BAR]

/-- Inspired nitrogen pressure at the 3 m stop. -/
lemma cex_inspired : getInspiredN2Pressure (3 : ℝ) = 0.987737 := by
  norm_num [getInspiredN2Pressure, getAmbientPressure, SURFACE_PRESSURE,
    METERS_TO_BAR, WATER_VAPOR_PRESSURE, N2_FRACTION]

/-- The stuck invariant: a single slow compartment (half-time 10⁶ min)
whose loading decays from 11.02 bar by less than 10⁻⁵ bar per simulated
minute, hence stays above the 9.513 bar ascent threshold for all 121
minutes. -/
def cexInv (n : ℕ) (ts : Tissues) : Prop :=
  ∃ p : ℝ, ts = [⟨1000000, 10, 1, p⟩] ∧
    10 - (121 - (n : ℝ)) / 100000 ≤ p ∧ p ≤ 11.02

lemma cexInv_can (n : ℕ) (ts : Tissues) (h : cexInv (n + 1) ts) :
    canAscendB 0.3 0.85 3 (3 - 3) ts = false := by
  obtain ⟨p, rfl, hlo, hhi⟩ := h
  have hcast : ((n + 1 : ℕ) : ℝ) = (n : ℝ) + 1 := by push_cast; ring
  have hn : (0 : ℝ) ≤ (n : ℝ) := Nat.cast_nonneg n
  rw [hcast] at hlo
  have hp : (9.513 : ℝ) < p := by linarith
  have hgfm := cex_gfm p
  simp [canAscendB, hgfm, hp]

lemma cexInv_step (n : ℕ) (ts : Tissues) (h : cexInv (n + 1) ts) :
    cexInv n (simulateStopMinute (getInspiredN2Pressure 3) ts) := by
  obtain ⟨p, rfl, hlo, hhi⟩ := h
  have hcast : ((n + 1 : ℕ) : ℝ) = (n : ℝ) + 1 := by push_cast; ring
  rw [hcast] at hlo
  have hn : (0 : ℝ) ≤ (n : ℝ) := Nat.cast_nonneg n
  refine ⟨calculateTissueLoading p (getInspiredN2Pressure 3) 1000000 1,
    rfl, ?_, ?_⟩ <;>
  · have hq : calculateTissueLoading p (getInspiredN2Pressure 3) 1000000 1 =
        p + (getInspiredN2Pressure 3 - p) *
          (1 - Real.exp (-(Real.log 2 / 1000000) * 1)) := rfl
    have hinsp := cex_inspired
    set E := Real.exp (-(Real.log 2 / 1000000) * 1) with hE
    have hlog0 : (0 : ℝ) ≤ Real.log 2 := Real.log_nonneg one_le_two
    have hlog1 : Real.log 2 < 0.6931471808 := Real.log_two_lt_d9
    have hEpos : 0 < E := Real.exp_pos _
    have hEle : E ≤ 1 := by
      rw [hE]
      refine Real.exp_le_one_iff.mpr ?_
      rw [mul_one, neg_nonpos]
      positivity
    have h1mE : 1 - E ≤ Real.log 2 / 1000000 := by
      have := Real.add_one_le_exp (-(Real.log 2 / 1000000) * 1)
      rw [hE]
      linarith
    have hd1 : 1 - E ≤ 0.6931471808 / 1000000 := by linarith
    have hd0 : (0 : ℝ) ≤ 1 - E := by linarith
    have hb : (0 : ℝ) ≤ p - getInspiredN2Pressure 3 := by
      rw [hinsp]; linarith
    have ha : p - getInspiredN2Pressure 3 ≤ 10.032263 := by
      rw [hinsp]; linarith
    have hprod : (p - getInspiredN2Pressure 3) * (1 - E) ≤
        10.032263 * (0.6931471808 / 1000000) :=
      mul_le_mul ha hd1 hd0 (by norm_num)
    have hprod0 : 0 ≤ (p - getInspiredN2Pressure 3) * (1 - E) :=
      mul_nonneg hb hd0
    have heq : (getInspiredN2Pressure 3 - p) * (1 - E) =
        -((p - getInspiredN2Pressure 3) * (1 - E)) := by ring
    rw [hq, heq]
    · linarith

/-- The counterexample compartment keeps the inner loop stuck for all 121
fuel units: the recorded stop time is 121 minutes. -/
lemma cex_stopLoop :
    (stopLoop 0.3 0.85 3 3 (getInspiredN2Pressure 3) 121
      [⟨1000000, 10, 1, 11.02⟩] 0).1 = 121 := by
  have hbase : cexInv 121 [⟨1000000, 10, 1, 11.02⟩] :=
    ⟨11.02, rfl, by norm_num, le_refl _⟩
  have h := stopLoop_stuck 0.3 0.85 3 3 (getInspiredN2Pressure 3) cexInv
    cexInv_can cexInv_step 121 [⟨1000000, 10, 1, 11.02⟩] 0 hbase
  simpa using h

/-- The counterexample tissue yields ceiling 1 m. -/
lemma cex_ceiling :
    calculateCeiling (0.3 : ℝ) [⟨1000000, 10, 1, 11.02⟩] = 1 := by
  have hf : ceilingDepthOf (0.3 : ℝ) ⟨1000000, 10, 1, 11.02⟩ = 7 / 30 := by
    norm_num [ceilingDepthOf, SURFACE_PRESSURE, METERS_TO_BAR]
  have hloop : ceilingLoop (0.3 : ℝ) [⟨1000000, 10, 1, 11.02⟩] 0 = 7 / 30 := by
    rw [ceilingLoop_eq_foldr, List.map_cons, List.map_nil, List.foldr_cons,
      List.foldr_nil, hf]
    exact max_eq_left (by norm_num)
  unfold calculateCeiling
  rw [hloop]
  have hc : ⌈(7 / 30 : ℝ)⌉ = 1 := by
    rw [Int.ceil_eq_iff]
    norm_num
  rw [hc]
  norm_num

/-- C4 (counterexample): on a tissue state with one very slow compartment
(half-time 10⁶ min, a = 10, b = 1, pN2 = 11.02 bar) the 3 m stop never
converges and the recorded duration is 121 minutes, exceeding the claimed
120-minute cap (the loop increments to 121 before the `> 120` break
fires). -/
theorem calculateDecoStops_cap_cex :
    calculateDecoStops 0.3 0.85 [⟨1000000, 10, 1, 11.02⟩] =
      [⟨3, 121⟩] ∧
    ¬ (∀ s ∈ calculateDecoStops 0.3 0.85 [⟨1000000, 10, 1, 11.02⟩],
        s.duration ≤ 120) := by
  have hmain : calculateDecoStops 0.3 0.85 [⟨1000000, 10, 1, 11.02⟩] =
      [⟨3, 121⟩] := by
    unfold calculateDecoStops
    rw [cex_ceiling, if_neg (by norm_num)]
    have h13 : ⌈((1 : ℤ) : ℚ) / 3⌉ = 1 := by
      rw [Int.ceil_eq_iff]
      norm_num
    rw [h13, show ((1 : ℤ).toNat : ℕ) = 1 from rfl]
    rw [decoLoop]
    rw [show (3 * (((0 : ℕ) + 1 : ℕ) : ℝ)) = 3 by norm_num]
    rw [cex_stopLoop, if_pos (by norm_num), decoLoop, List.append_nil]
  refine ⟨hmain, ?_⟩
  intro hall
  have h := hall ⟨3, 121⟩ (by rw [hmain]; exact List.mem_singleton.mpr rfl)
  norm_num at h

/-! ### C8: seek determinism -/

/-- Two engine states that agree everywhere except possibly in the
safety-stop portion of their snapshots: both must carry a profile, both
calculators, equal snapshots depths, and inactive safety stops.  One
`updateDiveState` step from such states produces equal states. -/
def EngineSync (a b : EngineState) : Prop :=
  a.currentProfile = b.currentProfile ∧
  (∃ p, a.currentProfile = some p) ∧
  a.playback = b.playback ∧
  a.decoCalc = b.decoCalc ∧ (∃ dc, a.decoCalc = some dc) ∧
  a.airCalc = b.airCalc ∧ (∃ ac, a.airCalc = some ac) ∧
  a.processedEvents = b.processedEvents ∧
  a.maxDepth = b.maxDepth ∧
  (∃ d d', a.diveState = some d ∧ b.diveState = some d' ∧
    d.currentDepth = d'.currentDepth ∧
    d.safetyStop.active = false ∧ d'.safetyStop.active = false)

/-- The safety-stop update does not look at any field of an inactive
previous state. -/
lemma calculateSafetyStopState_inactive {cd m δ : ℝ}
    {st st' : SafetyStopState ℝ}
    (h : st.active = false) (h' : st'.active = false) :
    calculateSafetyStopState cd m (some st) δ =
      calculateSafetyStopState cd m (some st') δ := by
  unfold calculateSafetyStopState
  split <;> simp [safetyStopCompleted, h, h']

/-- The snapshot produced by an advance can only have an active safety stop
if the running max depth is ≥ 10 while the current depth is in [4, 6]. -/
lemma calculateSafetyStopState_active_eq (cd m : ℝ)
    (prev : Option (SafetyStopState ℝ)) (δ : ℝ)
    (hcontra : ¬ (m ≥ 10 ∧ 4 ≤ cd ∧ cd ≤ 6)) :
    (calculateSafetyStopState cd m prev δ).active = false := by
  unfold calculateSafetyStopState
  split
  · rename_i hcond
    exfalso
    apply hcontra
    simp only [Bool.and_eq_true, decide_eq_true_eq] at hcond
    exact ⟨hcond.1, hcond.2.1, hcond.2.2⟩
  · rfl

/-- One synchronized step: advancing two `EngineSync`-related states to the
same clock position with the same delta yields literally equal states. -/
lemma updateDiveState_sync (a b : EngineState) (h : EngineSync a b)
    (t δ : ℝ) :
    updateDiveState (withTime a t) δ = updateDiveState (withTime b t) δ := by
  obtain ⟨hprof, ⟨p, hp⟩, hpb, hdceq, ⟨dc, hdc⟩, haceq, ⟨ac, hac⟩, hpe, hmd,
    d, d', hd, hd', hdep, hact, hact'⟩ := h
  rcases a with ⟨aprof, apb, ads, adc, aac, ape, amd⟩
  rcases b with ⟨bprof, bpb, bds, bdc, bac, bpe, bmd⟩
  simp only at hprof hp hpb hdceq hdc haceq hac hpe hmd hd hd'
  subst hprof hpb hdceq haceq hpe hmd hp hdc hac hd hd'
  simp only [withTime, updateDiveState, Option.map_some']
  rw [hdep, calculateSafetyStopState_inactive hact hact']

/-- Reloading the same profile from any two engine states yields
`EngineSync`-related states: everything is rebuilt from the profile except
the safety-stop portion of the initial snapshot, and that snapshot can
never carry an active safety stop (max depth ≥ 10 and depth in [4, 6] are
incompatible at load time, where the max is the current depth or 0). -/
lemma loadProfile_sync (a b : EngineState) (p : DiveProfile) :
    EngineSync (loadProfile a p) (loadProfile b p) := by
  have hactive : ∀ (s : EngineState),
      ∃ d, (loadProfile s p).diveState = some d ∧
        d.currentDepth = (jsRound (interpolateDepth 0 p.waypoints * 10) : ℝ) / 10 ∧
        d.safetyStop.active = false := by
    intro s
    unfold loadProfile updateDiveState
    simp only
    refine ⟨_, rfl, rfl, ?_⟩
    apply calculateSafetyStopState_active_eq
    rintro ⟨h10, h4, h6⟩
    split_ifs at h10 with hgt
    · linarith
    · linarith
  obtain ⟨d, hd, hdep, hact⟩ := hactive a
  obtain ⟨d', hd', hdep', hact'⟩ := hactive b
  exact ⟨rfl, ⟨p, loadProfile_currentProfile a p⟩, rfl, rfl, ⟨_, rfl⟩, rfl,
    ⟨_, rfl⟩, rfl, rfl, d, d', hd, hd', by rw [hdep, hdep'], hact, hact'⟩

/-- The seek replay forgets the pre-seek state after its first iteration:
on `EngineSync`-related inputs and a positive target it produces equal
states. -/
lemma seekLoop_sync (τ : ℝ) (f : ℕ) (c : ℝ) (a b : EngineState)
    (h : EngineSync a b) (hc : c < τ) :
    seekLoop τ (f + 1) c a = seekLoop τ (f + 1) c b := by
  rw [seekLoop, seekLoop, if_pos hc, if_pos hc,
    updateDiveState_sync a b h (c + min (1 / 60) (τ - c))
      (min (1 / 60) (τ - c))]

lemma play_currentProfile (s : EngineState) :
    (play s).currentProfile = s.currentProfile := by
  unfold play
  rcases hp : s.currentProfile with _ | p <;> simp [hp]

/-- The seek replay core depends only on the profile and the target, as
long as the stored total time matches the profile and the clamped target is
positive. -/
lemma seekCore_sync (a b : EngineState) (p : DiveProfile) (T : ℝ)
    (htotA : a.playback.totalTime = profileTotalTime p)
    (htotB : b.playback.totalTime = profileTotalTime p)
    (hpos : 0 < max 0 (min T (profileTotalTime p))) :
    seekCore a p T = seekCore b p T := by
  have hA : (pause a).playback.totalTime = profileTotalTime p := htotA
  have hB : (pause b).playback.totalTime = profileTotalTime p := htotB
  unfold seekCore
  rw [hA, hB,
    seekLoop_sync (max 0 (min T (profileTotalTime p)))
      ((⌈max 0 (min T (profileTotalTime p)) * 60⌉).toNat) 0
      (loadProfile (pause a) p) (loadProfile (pause b) p)
      (loadProfile_sync (pause a) (pause b) p) hpos]

/-- `seekTo` on a loaded profile: remember the playing flag, run the core,
resume if needed. -/
lemma seekTo_eq (s : EngineState) (p : DiveProfile) (T : ℝ)
    (h : s.currentProfile = some p) :
    seekTo s T =
      if s.playback.state = PlaybackState.playing
      then play (seekCore s p T) else seekCore s p T := by
  simp only [seekTo, h]

/-- C8 (amended): for a loaded profile with a consistent stored total time
and a clamped target time strictly greater than 0, `seekTo(T)` twice in
succession equals `seekTo(T)` once — the whole engine state, and in
particular the published `DiveState` snapshot, is reproduced identically.
(At clamped target 0 the replay loop never runs and the initial snapshot's
safety-stop fields can still see the pre-seek state, so `T = 0` is
excluded.) -/
theorem seekTo_deterministic (s : EngineState) (p : DiveProfile) (T : ℝ)
    (hp : s.currentProfile = some p)
    (htot : s.playback.totalTime = profileTotalTime p)
    (hpos : 0 < max 0 (min T (profileTotalTime p))) :
    seekTo (seekTo s T) T = seekTo s T := by
  have hcoreprof : (seekCore s p T).currentProfile = some p :=
    seekCore_currentProfile s p T
  obtain ⟨x, hcorepb⟩ := seekCore_playback s p T
  have hseek : seekTo s T =
      if s.playback.state = PlaybackState.playing
      then play (seekCore s p T) else seekCore s p T := seekTo_eq s p T hp
  by_cases hw : s.playback.state = PlaybackState.playing
  · have hseek2 : seekTo s T = play (seekCore s p T) := by
      rw [hseek, if_pos hw]
    have hplay : play (seekCore s p T) =
        { seekCore s p T with playback :=
          { (seekCore s p T).playback with state := PlaybackState.playing } } := by
      simp only [play, hcoreprof]
    have h2prof : (seekTo s T).currentProfile = some p := by
      rw [hseek2, hplay]
      exact hcoreprof
    have h2tot : (seekTo s T).playback.totalTime = profileTotalTime p := by
      rw [hseek2, hplay]
      show (seekCore s p T).playback.totalTime = profileTotalTime p
      rw [hcorepb]
    have h2play : (seekTo s T).playback.state = PlaybackState.playing := by
      rw [hseek2, hplay]
    have houter : seekTo (seekTo s T) T =
        if (seekTo s T).playback.state = PlaybackState.playing
        then play (seekCore (seekTo s T) p T)
        else seekCore (seekTo s T) p T := seekTo_eq (seekTo s T) p T h2prof
    rw [houter, if_pos h2play,
      seekCore_sync (seekTo s T) s p T h2tot htot hpos, hseek2]
  · have hseek2 : seekTo s T = seekCore s p T := by
      rw [hseek, if_neg hw]
    have h2prof : (seekTo s T).currentProfile = some p := by
      rw [hseek2]
      exact hcoreprof
    have h2tot : (seekTo s T).playback.totalTime = profileTotalTime p := by
      rw [hseek2, hcorepb]
    have h2play : ¬ (seekTo s T).playback.state = PlaybackState.playing := by
      rw [hseek2, hcorepb]
      intro hcontra
      exact PlaybackState.noConfusion hcontra
    have houter : seekTo (seekTo s T) T =
        if (seekTo s T).playback.state = PlaybackState.playing
        then play (seekCore (seekTo s T) p T)
        else seekCore (seekTo s T) p T := seekTo_eq (seekTo s T) p T h2prof
    rw [houter, if_neg h2play,
      seekCore_sync (seekTo s T) s p T h2tot htot hpos, hseek2]

/-- A one-minute flat profile used by the C8 witness. -/
def witnessProfileSeek : DiveProfile :=
  { id := "ws", initialTankPressure := 200, tankVolume := 12, sacRate := 20,
    waypoints := [⟨1, 0⟩], events := [] }

/-- An engine state with `witnessProfileSeek` loaded (total time 1 min). -/
def witnessLoadedSeek : EngineState :=
  { engineInit with
    currentProfile := some witnessProfileSeek
    playback := { engineInit.playback with totalTime := 1 } }

/-- C8 (witness): two seeks to minute 1 on the one-minute profile coincide
with one. -/
theorem seekTo_deterministic_witness :
    seekTo (seekTo witnessLoadedSeek 1) 1 = seekTo witnessLoadedSeek 1 :=
  seekTo_deterministic witnessLoadedSeek witnessProfileSeek 1 rfl rfl
    (by rw [show profileTotalTime witnessProfileSeek = 1 from rfl]; norm_num)

/-- The profile of the C8 counterexample: a single waypoint at the
surface. -/
def cexProfile : DiveProfile :=
  { id := "cx", initialTankPressure := 200, tankVolume := 12, sacRate := 20,
    waypoints := [⟨0, 0⟩], events := [] }

/-- A snapshot carrying a just-completed safety stop (active with
0 seconds remaining), as produced by finishing the 3-minute stop. -/
def cexSnapshot : DiveState :=
  { currentTime := 0
    currentDepth := 0
    maxDepth := 0
    deco :=
      { tissues := []
        ndl := none
        ceiling := 0
        decoStops := []
        tts := 0
        gfLow := 0.3
        gfHigh := 0.85 }
    air :=
      { initialTankPressure := 200
        tankPressure := 200
        remainingAirTime := 0
        currentSacRate := 20
        averageSacRate := 20
        airConsumed := 0 }
    ascent := { rate := 0, isViolation := false, maxAllowedRate := 10 }
    safetyStop :=
      { required := false
        active := true
        depth := 5
        duration := 180
        remaining := 0 }
    activeWarnings := [] }

/-- The pre-seek engine state of the C8 counterexample. -/
def cexEngine : EngineState :=
  { currentProfile := some cexProfile
    playback :=
      { state := PlaybackState.paused
        speed := 1
        currentTime := 0
        totalTime := 0
        stepSize := 10 }
    diveState := some cexSnapshot
    decoCalc := none
    airCalc := none
    processedEvents := []
    maxDepth := 0 }

/-- At maximum depth `if cd > 0 then cd else 0` the safety stop can never
become active. -/
lemma cex_active_false (cd : ℝ) (prev : Option (SafetyStopState ℝ)) (δ : ℝ) :
    (calculateSafetyStopState cd (if cd > 0 then cd else 0) prev δ).active
      = false := by
  apply calculateSafetyStopState_active_eq
  rintro ⟨h10, h4, h6⟩
  split_ifs at h10 with hgt
  · linarith
  · linarith

/-- The safety-stop update at the surface with zeroed max depth: never
required nor active; the remaining time collapses to 0 exactly when the
previous stop was active with no time left. -/
lemma cex_sss (st : SafetyStopState ℝ) :
    calculateSafetyStopState (0 : ℝ) 0 (some st) 0 =
      { required := false, active := false, depth := 5, duration := 180,
        remaining :=
          if st.active && decide (st.remaining ≤ (0 : ℝ)) then 0 else 180 } := by
  have h010 : ¬ ((0 : ℝ) ≥ 10) := by norm_num
  simp [calculateSafetyStopState, safetyStopCompleted, h010,
    SAFETY_STOP_DEPTH, SAFETY_STOP_DURATION]

/-- Loading `cexProfile` produces an initial snapshot at the surface whose
safety stop is inactive, and whose remaining seconds are 0 exactly when the
previous snapshot held a finished active stop — the pre-seek state leaks
into the t = 0 snapshot. -/
lemma cex_load (s : EngineState) (ds : DiveState) (hds : s.diveState = some ds) :
    ∃ d, (loadProfile s cexProfile).diveState = some d ∧
      d.safetyStop.active = false ∧
      d.safetyStop.remaining =
        (if ds.safetyStop.active && decide (ds.safetyStop.remaining ≤ (0 : ℝ))
         then (0 : ℝ) else 180) := by
  have hinterp : interpolateDepth 0 cexProfile.waypoints = 0 := by
    show interpolateDepth 0 [⟨0, 0⟩] = 0
    unfold interpolateDepth
    simp

  have hcd : ((jsRound (interpolateDepth 0 cexProfile.waypoints * 10) : ℤ) : ℝ)
      / 10 = 0 := by
    rw [hinterp]
    norm_num [jsRound]
  unfold loadProfile updateDiveState
  simp only
  refine ⟨_, rfl, ?_, ?_⟩
  · exact cex_active_false _ _ _
  · rw [hds]
    rw [hcd, if_neg (lt_irrefl (0 : ℝ)), Option.map_some', cex_sss]

/-- One `seekTo 0` pass over a loaded `cexProfile` state: the profile,
paused state and zero total time persist, and the new snapshot's remaining
safety-stop seconds are determined by whether the previous snapshot held a
just-finished active stop. -/
lemma cex_step (s : EngineState) (ds : DiveState)
    (hprof : s.currentProfile = some cexProfile)
    (hstate : s.playback.state = PlaybackState.paused)
    (htot : s.playback.totalTime = 0)
    (hds : s.diveState = some ds) :
    (seekTo s 0).currentProfile = some cexProfile ∧
    (seekTo s 0).playback.state = PlaybackState.paused ∧
    (seekTo s 0).playback.totalTime = 0 ∧
    ∃ d, (seekTo s 0).diveState = some d ∧
      d.safetyStop.active = false ∧
      d.safetyStop.remaining =
        (if ds.safetyStop.active && decide (ds.safetyStop.remaining ≤ (0 : ℝ))
         then (0 : ℝ) else 180) := by
  have hnp : ¬ s.playback.state = PlaybackState.playing := by
    rw [hstate]
    intro h
    exact PlaybackState.noConfusion h
  have hseek : seekTo s 0 = seekCore s cexProfile 0 := by
    rw [seekTo_eq s cexProfile 0 hprof, if_neg hnp]
  have hcore : seekCore s cexProfile 0 =
      { loadProfile (pause s) cexProfile with playback :=
        { (loadProfile (pause s) cexProfile).playback with
          state := PlaybackState.paused } } := by
    unfold seekCore
    rw [show (pause s).playback.totalTime = 0 from htot]
    rw [show (max (0 : ℝ) (min 0 0)) = 0 by norm_num]
    rw [show ((⌈(0 : ℝ) * 60⌉).toNat) = 0 by norm_num]
    rw [seekLoop, if_neg (lt_irrefl (0 : ℝ))]
  obtain ⟨d, hd, hact, hrem⟩ := cex_load (pause s) ds hds
  refine ⟨?_, ?_, ?_, d, ?_, hact, hrem⟩
  · rw [hseek, hcore]
    exact loadProfile_currentProfile (pause s) cexProfile
  · rw [hseek, hcore]
  · rw [hseek, hcore]
    show (loadProfile (pause s) cexProfile).playback.totalTime = 0
    rw [loadProfile_playback]
    rfl
  · rw [hseek, hcore]
    exact hd

/-- C8 (counterexample): at target time 0 the seek replay never runs, so
the t = 0 snapshot consults the pre-seek dive state: from a state holding a
completed safety stop (active, 0 s remaining), the first `seekTo 0`
publishes `remaining = 0` while the second publishes `remaining = 180`, so
the two snapshots are not identical. -/
theorem seekTo_idem_cex :
    (seekTo (seekTo cexEngine 0) 0).diveState ≠ (seekTo cexEngine 0).diveState := by
  obtain ⟨h1p, h1s, h1t, d1, hd1, hact1, hrem1⟩ :=
    cex_step cexEngine cexSnapshot rfl rfl rfl rfl
  have hrem1z : d1.safetyStop.remaining = 0 := by
    rw [hrem1]
    norm_num [cexSnapshot]
  obtain ⟨h2p, h2s, h2t, d2, hd2, hact2, hrem2⟩ :=
    cex_step (seekTo cexEngine 0) d1 h1p h1s h1t hd1
  have hrem2z : d2.safetyStop.remaining = 180 := by
    rw [hrem2, hact1]
    simp
  intro hcontra
  rw [hd2, hd1] at hcontra
  have hdd : d2 = d1 := Option.some.inj hcontra
  rw [hdd, hrem1z] at hrem2z
  norm_num at hrem2z

end Simdive
